import Mathlib

/-!
# cloudflare-ddns: a shallow embedding of `main.go`

The program is a sequential script over the process environment, one HTTP GET
and a handful of Cloudflare API calls.  Everything outside the process (the
environment, the discovery endpoint, the DNS provider) is a field of `World`;
the program itself is a function from a `World` to a `Run`: the ordered trace
of log lines and external calls, and the exit code.

Go's `string` and `[]byte` are both modelled by `String`, the carrier of a
byte sequence: the conversion `string(body)` copies the bytes unchanged and is
the identity here.  A Go `error` is observed only through `Error()`.
-/

namespace CloudflareDDNS

/-! ## Data model -/

/-- Go `error`: only the text given by `Error()` is ever observed. -/
structure GoError where
  Error : String
deriving DecidableEq, Repr

/-- Result of a Go call returning `(value, err)`. -/
inductive Result (α : Type) where
  | ok (value : α)
  | err (e : GoError)
deriving DecidableEq, Repr

/-- The fields of `cloudflare.DNSRecord` the program reads (`Type_` is Go's
`Type`, a reserved word here). -/
structure DNSRecord where
  ID : String
  Type_ : String
  Name : String
  Content : String
  Comment : String
deriving DecidableEq, Repr

/-- The fields of `cloudflare.ListDNSRecordsParams` the program sets. -/
structure ListDNSRecordsParams where
  Type_ : String
  Name : String
deriving DecidableEq, Repr

/-- The fields of `cloudflare.UpdateDNSRecordParams` the program sets;
`Comment` is a `*string` in Go. -/
structure UpdateDNSRecordParams where
  ID : String
  Type_ : String
  Name : String
  Content : String
  Comment : Option String
deriving DecidableEq, Repr

/-- The fields of `cloudflare.CreateDNSRecordParams` the program sets. -/
structure CreateDNSRecordParams where
  Type_ : String
  Name : String
  Content : String
  Comment : String
deriving DecidableEq, Repr

/-- The client handle `*cloudflare.API`, built from the token. -/
structure API where
  APIToken : String
deriving DecidableEq, Repr

/-- A successful `http.Get`: the only thing the program does with the
response is `io.ReadAll(resp.Body)`, whose outcome is `Body`. -/
structure Response where
  Body : Result String
deriving DecidableEq, Repr

/-- Everything outside the process.  `environ name = none` is an unset
variable; the other fields are the answers of the third-party client library
and of the HTTP transport. -/
structure World where
  environ : String → Option String
  NewWithAPIToken : String → Result API
  ZoneIDByName : API → String → Result String
  ListDNSRecords : API → String → ListDNSRecordsParams → Result (List DNSRecord)
  UpdateDNSRecord : API → String → UpdateDNSRecordParams → Result DNSRecord
  CreateDNSRecord : API → String → CreateDNSRecordParams → Result DNSRecord
  httpGet : String → Result Response

/-- One observable step of a run, in program order.  Calls carry the request
and the answer received. -/
inductive Event where
  | print (line : String)
  | fatal (line : String)
  | newWithAPIToken (token : String) (res : Result API)
  | zoneIDByName (zoneName : String) (res : Result String)
  | get (url : String) (res : Result Response)
  | listDNSRecords (zoneId : String) (params : ListDNSRecordsParams)
      (res : Result (List DNSRecord))
  | updateDNSRecord (zoneId : String) (params : UpdateDNSRecordParams)
      (res : Result DNSRecord)
  | createDNSRecord (zoneId : String) (params : CreateDNSRecordParams)
      (res : Result DNSRecord)
deriving DecidableEq, Repr

/-- Where a computation stands: it returned a value, or the process exited. -/
inductive Outcome (α : Type) where
  | returned (value : α) (trace : List Event)
  | exited (code : Nat) (trace : List Event)
deriving DecidableEq, Repr

/-- A Go function body: it extends the trace so far and either returns or
ends the process. -/
def Proc (α : Type) : Type := List Event → Outcome α

/-- Return without any effect. -/
def Proc.pure {α : Type} (a : α) : Proc α := fun tr => .returned a tr

/-- Sequencing: nothing runs after the process has exited. -/
def Proc.bind {α β : Type} (x : Proc α) (f : α → Proc β) : Proc β := fun tr =>
  match x tr with
  | .returned a tr1 => f a tr1
  | .exited c tr1 => .exited c tr1

instance : Monad Proc where
  pure := Proc.pure
  bind := Proc.bind

/-- Append one event to the trace. -/
def emit (e : Event) : Proc Unit := fun tr => .returned () (tr ++ [e])

/-- Go `log.Print` / `log.Printf`: `line` is the formatted message. -/
def logPrint (line : String) : Proc Unit := emit (.print line)

/-- Go `log.Fatal` / `log.Fatalf`: print the message, then `os.Exit(1)`. -/
def logFatal {α : Type} (line : String) : Proc α := fun tr =>
  .exited 1 (tr ++ [.fatal line])

/-- Go `os.Getenv`: the value, or the empty string when unset. -/
def osGetenv (w : World) (name : String) : String := (w.environ name).getD ""

/-! ## The program -/

/-- Source: `getRequiredEnvironmentVariable` (main.go 100-107). -/
def getRequiredEnvironmentVariable (w : World) (name : String) : Proc String := do
  let value := osGetenv w name
  if value.utf8ByteSize == 0 then
    logFatal ("Expected environment variable " ++ name ++ " not found or not set.")
  return value

/-- Source: `getOptionalEnvironmentVariable` (main.go 109-116). -/
def getOptionalEnvironmentVariable (w : World) (name : String) (defaultValue : String) :
    Proc String := do
  let mut value := osGetenv w name
  if value.utf8ByteSize == 0 then
    value := defaultValue
  return value

/-- Source: `getPublicIp` (main.go 85-98). -/
def getPublicIp (w : World) (endpoint : String) : Proc String := do
  let r := w.httpGet endpoint
  emit (.get endpoint r)
  match r with
  | .err e => return e.Error
  | .ok req =>
    match req.Body with
    | .err e => return e.Error
    | .ok body => return body

/-- Source: `main` (main.go 14-83). -/
def main (w : World) : Proc Unit := do
  let cloudflareApiToken ← getRequiredEnvironmentVariable w "DDNS_CLOUDFLARE_API_TOKEN"
  let cloudflareZoneName ← getRequiredEnvironmentVariable w "DDNS_CLOUDFLARE_ZONE_NAME"
  let cloudflareDdnsSubdomain ← getRequiredEnvironmentVariable w "DDNS_CLOUDFLARE_SUBDOMAIN"
  let cloudflareDdnsComment ← getRequiredEnvironmentVariable w "DDNS_CLOUDFLARE_COMMENT"
  let publicIpEndpoint ←
    getOptionalEnvironmentVariable w "DDNS_PUBLIC_IP_ENDPOINT" "https://ipinfo.io/ip"

  logPrint "Running Cloudflare DDNS with the following parameters:"
  logPrint "- API Token: REDACTED"
  logPrint ("- Zone Name: " ++ cloudflareZoneName)
  logPrint ("- Subdomain: " ++ cloudflareDdnsSubdomain)
  logPrint ("- Comment: " ++ cloudflareDdnsComment)
  logPrint ("- Public IP Endpoint: " ++ publicIpEndpoint)

  let r1 := w.NewWithAPIToken cloudflareApiToken
  emit (.newWithAPIToken cloudflareApiToken r1)
  match r1 with
  | .err e => logFatal e.Error
  | .ok api =>
  let r2 := w.ZoneIDByName api cloudflareZoneName
  emit (.zoneIDByName cloudflareZoneName r2)
  match r2 with
  | .err e => logFatal e.Error
  | .ok zoneId =>
  let publicIp ← getPublicIp w publicIpEndpoint
  logPrint ("Current public IP address is: " ++ publicIp)

  logPrint "Searching existing records..."
  let listParams : ListDNSRecordsParams :=
    { Type_ := "A", Name := cloudflareDdnsSubdomain ++ "." ++ cloudflareZoneName }
  let r3 := w.ListDNSRecords api zoneId listParams
  emit (.listDNSRecords zoneId listParams r3)
  match r3 with
  | .err e => logFatal e.Error
  | .ok allRecords =>
  if allRecords.length > 1 then
    logFatal ("Found multiple records for search A " ++ cloudflareDdnsSubdomain ++ ". Aborting.")
  else if h : allRecords.length = 1 then
    let currentRecord := allRecords.get ⟨0, by omega⟩
    logPrint ("Found existing record: " ++ currentRecord.Type_ ++ " " ++ currentRecord.Name
      ++ " -> " ++ currentRecord.Content ++ ". Will update...")
    let updParams : UpdateDNSRecordParams :=
      { ID := currentRecord.ID, Type_ := "A", Name := cloudflareDdnsSubdomain,
        Content := publicIp, Comment := some cloudflareDdnsComment }
    let r4 := w.UpdateDNSRecord api zoneId updParams
    emit (.updateDNSRecord zoneId updParams r4)
    match r4 with
    | .err e => logFatal e.Error
    | .ok record =>
    logPrint ("Sucessfully updated record: " ++ record.Type_ ++ " " ++ record.Name
      ++ " -> " ++ record.Content)
  else
    logPrint "Record doesn't exist yet. Will create..."
    let crtParams : CreateDNSRecordParams :=
      { Type_ := "A", Name := cloudflareDdnsSubdomain,
        Content := publicIp, Comment := cloudflareDdnsComment }
    let r5 := w.CreateDNSRecord api zoneId crtParams
    emit (.createDNSRecord zoneId crtParams r5)
    match r5 with
    | .err e => logFatal e.Error
    | .ok record =>
    logPrint ("Sucessfully created record: " ++ record.Type_ ++ " " ++ record.Name
      ++ " -> " ++ record.Content)

/-- A finished run: the whole trace and the process exit code. -/
structure Run where
  trace : List Event
  exitCode : Nat
deriving DecidableEq, Repr

/-- Run the program from an empty trace; returning from `main` exits with 0. -/
def run (w : World) : Run :=
  match main w [] with
  | .returned _ tr => ⟨tr, 0⟩
  | .exited c tr => ⟨tr, c⟩

/-! ## Values and traces read off the program -/

/-- The four variables read with `getRequiredEnvironmentVariable`, in the
order `main` reads them. -/
def requiredVariables : List String :=
  ["DDNS_CLOUDFLARE_API_TOKEN", "DDNS_CLOUDFLARE_ZONE_NAME",
   "DDNS_CLOUDFLARE_SUBDOMAIN", "DDNS_CLOUDFLARE_COMMENT"]

/-- All four required variables are set to a non-empty value. -/
def ValidConfig (w : World) : Prop :=
  ∀ name ∈ requiredVariables, osGetenv w name ≠ ""

instance (w : World) : Decidable (ValidConfig w) := by
  unfold ValidConfig
  infer_instance

/-- The first required variable, in the order `main` reads them, that is
unset or empty. -/
def firstMissing (w : World) : Option String :=
  requiredVariables.find? (fun name => osGetenv w name == "")

/-- The message of `log.Fatalf` in `getRequiredEnvironmentVariable`
(main.go 103). -/
def missingVariableMessage (name : String) : String :=
  "Expected environment variable " ++ name ++ " not found or not set."

/-- The value `main` binds to `publicIpEndpoint` (main.go 19). -/
def publicIpEndpoint (w : World) : String :=
  match getOptionalEnvironmentVariable w "DDNS_PUBLIC_IP_ENDPOINT" "https://ipinfo.io/ip" [] with
  | .returned v _ => v
  | .exited _ _ => ""

/-- The value `main` binds to `publicIp` (main.go 38). -/
def publicIp (w : World) : String :=
  match getPublicIp w (publicIpEndpoint w) [] with
  | .returned v _ => v
  | .exited _ _ => ""

/-- The query `main` sends to `ListDNSRecords` (main.go 42-45). -/
def listQuery (w : World) : ListDNSRecordsParams :=
  { Type_ := "A",
    Name := osGetenv w "DDNS_CLOUDFLARE_SUBDOMAIN" ++ "." ++ osGetenv w "DDNS_CLOUDFLARE_ZONE_NAME" }

/-- The parameters of the `UpdateDNSRecord` call for the record `r`
(main.go 56-62). -/
def updateParams (w : World) (r : DNSRecord) : UpdateDNSRecordParams :=
  { ID := r.ID, Type_ := "A", Name := osGetenv w "DDNS_CLOUDFLARE_SUBDOMAIN",
    Content := publicIp w, Comment := some (osGetenv w "DDNS_CLOUDFLARE_COMMENT") }

/-- The parameters of the `CreateDNSRecord` call (main.go 71-76). -/
def createParams (w : World) : CreateDNSRecordParams :=
  { Type_ := "A", Name := osGetenv w "DDNS_CLOUDFLARE_SUBDOMAIN",
    Content := publicIp w, Comment := osGetenv w "DDNS_CLOUDFLARE_COMMENT" }

/-- The six parameter lines `main` prints first (main.go 21-26). -/
def parameterLines (w : World) : List Event :=
  [.print "Running Cloudflare DDNS with the following parameters:",
   .print "- API Token: REDACTED",
   .print ("- Zone Name: " ++ osGetenv w "DDNS_CLOUDFLARE_ZONE_NAME"),
   .print ("- Subdomain: " ++ osGetenv w "DDNS_CLOUDFLARE_SUBDOMAIN"),
   .print ("- Comment: " ++ osGetenv w "DDNS_CLOUDFLARE_COMMENT"),
   .print ("- Public IP Endpoint: " ++ publicIpEndpoint w)]

/-- The trace of a run from its start to the answer of `ListDNSRecords`
(main.go 21-45), when client and zone resolve to `api` and `zoneId`. -/
def traceToListing (w : World) (api : API) (zoneId : String) : List Event :=
  parameterLines w ++
  [.newWithAPIToken (osGetenv w "DDNS_CLOUDFLARE_API_TOKEN") (.ok api),
   .zoneIDByName (osGetenv w "DDNS_CLOUDFLARE_ZONE_NAME") (.ok zoneId),
   .get (publicIpEndpoint w) (w.httpGet (publicIpEndpoint w)),
   .print ("Current public IP address is: " ++ publicIp w),
   .print "Searching existing records...",
   .listDNSRecords zoneId (listQuery w) (w.ListDNSRecords api zoneId (listQuery w))]

/-- The run reaches the reconciliation branch (main.go 50): the configuration
is valid, the client was built, the zone resolved to `zoneId` and the listing
answered `allRecords`. -/
def ReachesReconciliation (w : World) (api : API) (zoneId : String)
    (allRecords : List DNSRecord) : Prop :=
  ValidConfig w ∧
  w.NewWithAPIToken (osGetenv w "DDNS_CLOUDFLARE_API_TOKEN") = .ok api ∧
  w.ZoneIDByName api (osGetenv w "DDNS_CLOUDFLARE_ZONE_NAME") = .ok zoneId ∧
  w.ListDNSRecords api zoneId (listQuery w) = .ok allRecords

instance (w : World) (api : API) (zoneId : String) (allRecords : List DNSRecord) :
    Decidable (ReachesReconciliation w api zoneId allRecords) := by
  unfold ReachesReconciliation
  infer_instance

/-- The nine ways a run of `main` can go, each with the outcome it produces. -/
inductive MainPath (w : World) : Outcome Unit → Prop where
  | config (name : String) (hf : firstMissing w = some name) :
      MainPath w (.exited 1 [.fatal (missingVariableMessage name)])
  | client (h : ValidConfig w) (e : GoError)
      (hc : w.NewWithAPIToken (osGetenv w "DDNS_CLOUDFLARE_API_TOKEN") = .err e) :
      MainPath w (.exited 1 (parameterLines w ++
        [.newWithAPIToken (osGetenv w "DDNS_CLOUDFLARE_API_TOKEN") (.err e), .fatal e.Error]))
  | zone (h : ValidConfig w) (api : API) (e : GoError)
      (hc : w.NewWithAPIToken (osGetenv w "DDNS_CLOUDFLARE_API_TOKEN") = .ok api)
      (hz : w.ZoneIDByName api (osGetenv w "DDNS_CLOUDFLARE_ZONE_NAME") = .err e) :
      MainPath w (.exited 1 (parameterLines w ++
        [.newWithAPIToken (osGetenv w "DDNS_CLOUDFLARE_API_TOKEN") (.ok api),
         .zoneIDByName (osGetenv w "DDNS_CLOUDFLARE_ZONE_NAME") (.err e), .fatal e.Error]))
  | listing (h : ValidConfig w) (api : API) (zoneId : String) (e : GoError)
      (hc : w.NewWithAPIToken (osGetenv w "DDNS_CLOUDFLARE_API_TOKEN") = .ok api)
      (hz : w.ZoneIDByName api (osGetenv w "DDNS_CLOUDFLARE_ZONE_NAME") = .ok zoneId)
      (hl : w.ListDNSRecords api zoneId (listQuery w) = .err e) :
      MainPath w (.exited 1 (traceToListing w api zoneId ++ [.fatal e.Error]))
  | multiple (api : API) (zoneId : String) (allRecords : List DNSRecord)
      (hr : ReachesReconciliation w api zoneId allRecords) (hn : 1 < allRecords.length) :
      MainPath w (.exited 1 (traceToListing w api zoneId ++
        [.fatal ("Found multiple records for search A " ++ osGetenv w "DDNS_CLOUDFLARE_SUBDOMAIN"
          ++ ". Aborting.")]))
  | updateErr (api : API) (zoneId : String) (r : DNSRecord) (e : GoError)
      (hr : ReachesReconciliation w api zoneId [r])
      (hu : w.UpdateDNSRecord api zoneId (updateParams w r) = .err e) :
      MainPath w (.exited 1 (traceToListing w api zoneId ++
        [.print ("Found existing record: " ++ r.Type_ ++ " " ++ r.Name ++ " -> " ++ r.Content
          ++ ". Will update..."),
         .updateDNSRecord zoneId (updateParams w r) (.err e), .fatal e.Error]))
  | updateOk (api : API) (zoneId : String) (r : DNSRecord) (record : DNSRecord)
      (hr : ReachesReconciliation w api zoneId [r])
      (hu : w.UpdateDNSRecord api zoneId (updateParams w r) = .ok record) :
      MainPath w (.returned () (traceToListing w api zoneId ++
        [.print ("Found existing record: " ++ r.Type_ ++ " " ++ r.Name ++ " -> " ++ r.Content
          ++ ". Will update..."),
         .updateDNSRecord zoneId (updateParams w r) (.ok record),
         .print ("Sucessfully updated record: " ++ record.Type_ ++ " " ++ record.Name ++ " -> "
          ++ record.Content)]))
  | createErr (api : API) (zoneId : String) (e : GoError)
      (hr : ReachesReconciliation w api zoneId [])
      (hu : w.CreateDNSRecord api zoneId (createParams w) = .err e) :
      MainPath w (.exited 1 (traceToListing w api zoneId ++
        [.print "Record doesn't exist yet. Will create...",
         .createDNSRecord zoneId (createParams w) (.err e), .fatal e.Error]))
  | createOk (api : API) (zoneId : String) (record : DNSRecord)
      (hr : ReachesReconciliation w api zoneId [])
      (hu : w.CreateDNSRecord api zoneId (createParams w) = .ok record) :
      MainPath w (.returned () (traceToListing w api zoneId ++
        [.print "Record doesn't exist yet. Will create...",
         .createDNSRecord zoneId (createParams w) (.ok record),
         .print ("Sucessfully created record: " ++ record.Type_ ++ " " ++ record.Name ++ " -> "
          ++ record.Content)]))

/-! ## Observations on traces -/

/-- Is the event a `CreateDNSRecord` call? -/
def Event.isCreate : Event → Bool
  | .createDNSRecord _ _ _ => true
  | _ => false

/-- Is the event an `UpdateDNSRecord` call? -/
def Event.isUpdate : Event → Bool
  | .updateDNSRecord _ _ _ => true
  | _ => false

/-- Is the event a `ListDNSRecords` call? -/
def Event.isList : Event → Bool
  | .listDNSRecords _ _ _ => true
  | _ => false

/-- Is the event the HTTP GET of the discovery endpoint? -/
def Event.isGet : Event → Bool
  | .get _ _ => true
  | _ => false

/-- Does the event send a request over the network?  Building the client
with `NewWithAPIToken` sends none. -/
def Event.isNetworkCall : Event → Bool
  | .zoneIDByName _ _ => true
  | .get _ _ => true
  | .listDNSRecords _ _ _ => true
  | .updateDNSRecord _ _ _ => true
  | .createDNSRecord _ _ _ => true
  | _ => false

/-- Is the event a create or update call that the provider answered without
error? -/
def Event.isSuccessfulMutation : Event → Bool
  | .createDNSRecord _ _ (.ok _) => true
  | .updateDNSRecord _ _ (.ok _) => true
  | _ => false

/-- Number of `CreateDNSRecord` calls in a trace. -/
def createCalls (tr : List Event) : Nat := tr.countP Event.isCreate

/-- Number of `UpdateDNSRecord` calls in a trace. -/
def updateCalls (tr : List Event) : Nat := tr.countP Event.isUpdate

/-- The log output of a run: the lines of `log.Print`, `log.Printf`,
`log.Fatal` and `log.Fatalf`, in order. -/
def logLines (tr : List Event) : List String :=
  tr.filterMap fun e =>
    match e with
    | .print line => some line
    | .fatal line => some line
    | _ => none

/-- The provider and the discovery endpoint answer the two runs alike: the
endpoint is the same function, client construction fails in both with the same
error or succeeds in both, and the two clients get the same answers. -/
def SameResponses (w1 w2 : World) : Prop :=
  w1.httpGet = w2.httpGet ∧
  (∀ e, w1.NewWithAPIToken (osGetenv w1 "DDNS_CLOUDFLARE_API_TOKEN") = .err e ↔
    w2.NewWithAPIToken (osGetenv w2 "DDNS_CLOUDFLARE_API_TOKEN") = .err e) ∧
  (∀ api1 api2,
    w1.NewWithAPIToken (osGetenv w1 "DDNS_CLOUDFLARE_API_TOKEN") = .ok api1 →
    w2.NewWithAPIToken (osGetenv w2 "DDNS_CLOUDFLARE_API_TOKEN") = .ok api2 →
    w1.ZoneIDByName api1 = w2.ZoneIDByName api2 ∧
    w1.ListDNSRecords api1 = w2.ListDNSRecords api2 ∧
    w1.UpdateDNSRecord api1 = w2.UpdateDNSRecord api2 ∧
    w1.CreateDNSRecord api1 = w2.CreateDNSRecord api2)

/-! ## Sample worlds -/

/-- A sample environment with all five variables set. -/
def sampleEnv : String → Option String := fun name =>
  if name = "DDNS_CLOUDFLARE_API_TOKEN" then some "tok"
  else if name = "DDNS_CLOUDFLARE_ZONE_NAME" then some "example.com"
  else if name = "DDNS_CLOUDFLARE_SUBDOMAIN" then some "home"
  else if name = "DDNS_CLOUDFLARE_COMMENT" then some "ddns"
  else none

/-- A sample world: the provider answers every call, the zone is `z1`, the
listing returns `recs`, and the discovery endpoint answers `203.0.113.5`. -/
def sampleWorld (recs : List DNSRecord) : World where
  environ := sampleEnv
  NewWithAPIToken := fun t => .ok ⟨t⟩
  ZoneIDByName := fun _ _ => .ok "z1"
  ListDNSRecords := fun _ _ _ => .ok recs
  UpdateDNSRecord := fun _ _ p => .ok ⟨p.ID, p.Type_, p.Name ++ ".example.com", p.Content, p.Comment.getD ""⟩
  CreateDNSRecord := fun _ _ p => .ok ⟨"new", p.Type_, p.Name ++ ".example.com", p.Content, p.Comment⟩
  httpGet := fun _ => .ok ⟨.ok "203.0.113.5"⟩

/-- A sample existing record. -/
def sampleRecord : DNSRecord :=
  { ID := "id1", Type_ := "A", Name := "home.example.com", Content := "203.0.113.1", Comment := "" }

/-- A listed record that matches neither the type nor the name of the query. -/
def foreignRecord : DNSRecord :=
  { ID := "id9", Type_ := "TXT", Name := "other.example.org", Content := "v=spf1", Comment := "" }

/-- The sample world with `DDNS_CLOUDFLARE_SUBDOMAIN` set to the empty string. -/
def sampleWorldEmptySubdomain : World :=
  { sampleWorld [] with
    environ := fun name =>
      if name = "DDNS_CLOUDFLARE_SUBDOMAIN" then some "" else sampleEnv name }

/-- The sample world with a discovery endpoint that cannot be reached. -/
def sampleWorldGetFails (recs : List DNSRecord) : World :=
  { sampleWorld recs with httpGet := fun _ => .err ⟨"dial tcp: i/o timeout"⟩ }

/-- The sample world with a discovery endpoint whose body cannot be read. -/
def sampleWorldReadFails (recs : List DNSRecord) : World :=
  { sampleWorld recs with httpGet := fun _ => .ok ⟨.err ⟨"unexpected EOF"⟩⟩ }

/-- The sample world with `DDNS_PUBLIC_IP_ENDPOINT` set. -/
def sampleWorldEndpoint : World :=
  { sampleWorld [] with
    environ := fun name =>
      if name = "DDNS_PUBLIC_IP_ENDPOINT" then some "https://api.ipify.org" else sampleEnv name }

/-- The sample world with another API token. -/
def sampleWorldOtherToken (recs : List DNSRecord) : World :=
  { sampleWorld recs with
    environ := fun name =>
      if name = "DDNS_CLOUDFLARE_API_TOKEN" then some "s3cr3t" else sampleEnv name }

/-! ## Lemmas -/

theorem utf8ByteSize_go_pos (c : Char) (cs : List Char) :
    0 < String.utf8ByteSize.go (c :: cs) := by
  have := Char.utf8Size_pos c
  simp [String.utf8ByteSize.go]
  omega

theorem utf8ByteSize_beq_zero (s : String) : (s.utf8ByteSize == 0) = decide (s = "") := by
  rcases s with ⟨cs⟩
  cases cs with
  | nil => rfl
  | cons c cs =>
    have h := utf8ByteSize_go_pos c cs
    have h1 : (String.mk (c :: cs)).utf8ByteSize ≠ 0 := by
      simp only [String.utf8ByteSize]; omega
    have h2 : String.mk (c :: cs) ≠ "" := by
      intro h3
      have := congrArg String.data h3
      simp at this
    rw [beq_false_of_ne h1]
    exact (decide_eq_false h2).symm

theorem bind_apply {α β : Type} (x : Proc α) (f : α → Proc β) (tr : List Event) :
    (x >>= f) tr = match x tr with
      | .returned a tr1 => f a tr1
      | .exited c tr1 => .exited c tr1 := rfl

theorem pure_apply {α : Type} (a : α) (tr : List Event) :
    (pure a : Proc α) tr = .returned a tr := rfl

theorem getRequired_eq (w : World) (name : String) (tr : List Event) :
    getRequiredEnvironmentVariable w name tr =
      if osGetenv w name = "" then
        .exited 1 (tr ++ [.fatal ("Expected environment variable " ++ name ++ " not found or not set.")])
      else .returned (osGetenv w name) tr := by
  unfold getRequiredEnvironmentVariable
  simp only [utf8ByteSize_beq_zero, bind_apply, pure_apply]
  by_cases h : osGetenv w name = "" <;> simp [h, logFatal, bind_apply, pure_apply]

theorem getOptional_eq (w : World) (name dflt : String) (tr : List Event) :
    getOptionalEnvironmentVariable w name dflt tr =
      .returned (if osGetenv w name = "" then dflt else osGetenv w name) tr := by
  unfold getOptionalEnvironmentVariable
  simp only [utf8ByteSize_beq_zero, bind_apply, pure_apply]
  by_cases h : osGetenv w name = "" <;> simp [h, bind_apply, pure_apply]

theorem getPublicIp_eq (w : World) (endpoint : String) (tr : List Event) :
    getPublicIp w endpoint tr =
      .returned
        (match w.httpGet endpoint with
          | .err e => e.Error
          | .ok req => match req.Body with
            | .err e => e.Error
            | .ok body => body)
        (tr ++ [.get endpoint (w.httpGet endpoint)]) := by
  unfold getPublicIp
  simp only [bind_apply, emit]
  cases h : w.httpGet endpoint with
  | err e => simp [pure_apply]
  | ok req =>
    cases h2 : req.Body with
    | err e => simp [pure_apply, h2]
    | ok body => simp [pure_apply, h2]

theorem validConfig_iff (w : World) : ValidConfig w ↔
    osGetenv w "DDNS_CLOUDFLARE_API_TOKEN" ≠ "" ∧ osGetenv w "DDNS_CLOUDFLARE_ZONE_NAME" ≠ "" ∧
    osGetenv w "DDNS_CLOUDFLARE_SUBDOMAIN" ≠ "" ∧ osGetenv w "DDNS_CLOUDFLARE_COMMENT" ≠ "" := by
  simp [ValidConfig, requiredVariables]

theorem publicIpEndpoint_eq (w : World) :
    publicIpEndpoint w =
      if osGetenv w "DDNS_PUBLIC_IP_ENDPOINT" = "" then "https://ipinfo.io/ip"
      else osGetenv w "DDNS_PUBLIC_IP_ENDPOINT" := by
  simp [publicIpEndpoint, getOptional_eq]

theorem publicIp_eq (w : World) :
    publicIp w = match w.httpGet (publicIpEndpoint w) with
      | .err e => e.Error
      | .ok req => match req.Body with
        | .err e => e.Error
        | .ok body => body := by
  simp [publicIp, getPublicIp_eq]

theorem getPublicIp_publicIp (w : World) (tr : List Event) :
    getPublicIp w (publicIpEndpoint w) tr =
      .returned (publicIp w) (tr ++ [.get (publicIpEndpoint w) (w.httpGet (publicIpEndpoint w))]) := by
  rw [getPublicIp_eq, publicIp_eq]

theorem main_newWithAPIToken_err (w : World) (h : ValidConfig w) (e : GoError)
    (hc : w.NewWithAPIToken (osGetenv w "DDNS_CLOUDFLARE_API_TOKEN") = .err e) :
    main w [] = .exited 1 (parameterLines w ++
      [.newWithAPIToken (osGetenv w "DDNS_CLOUDFLARE_API_TOKEN") (.err e), .fatal e.Error]) := by
  obtain ⟨h1, h2, h3, h4⟩ := (validConfig_iff w).1 h
  unfold main
  simp only [bind_apply, getRequired_eq, getOptional_eq, ← publicIpEndpoint_eq,
    getPublicIp_publicIp, logPrint, emit, logFatal,
    pure_apply, h1, h2, h3, h4, hc, if_false, List.nil_append, List.append_assoc,
    List.singleton_append, List.cons_append, parameterLines]

theorem firstMissing_eq_none_iff (w : World) : firstMissing w = none ↔ ValidConfig w := by
  simp [firstMissing, ValidConfig]

theorem main_config_err (w : World) (name : String) (h : firstMissing w = some name) :
    name ∈ requiredVariables ∧ osGetenv w name = "" ∧
      main w [] = .exited 1 [.fatal (missingVariableMessage name)] := by
  unfold firstMissing requiredVariables at h
  unfold main missingVariableMessage requiredVariables
  by_cases h1 : osGetenv w "DDNS_CLOUDFLARE_API_TOKEN" = ""
  · rw [List.find?_cons_of_pos _ (by simp [h1])] at h
    cases h
    exact ⟨by simp, h1, by simp [bind_apply, getRequired_eq, h1]⟩
  rw [List.find?_cons_of_neg _ (by simp [h1])] at h
  by_cases h2 : osGetenv w "DDNS_CLOUDFLARE_ZONE_NAME" = ""
  · rw [List.find?_cons_of_pos _ (by simp [h2])] at h
    cases h
    exact ⟨by simp, h2, by simp [bind_apply, getRequired_eq, h1, h2]⟩
  rw [List.find?_cons_of_neg _ (by simp [h2])] at h
  by_cases h3 : osGetenv w "DDNS_CLOUDFLARE_SUBDOMAIN" = ""
  · rw [List.find?_cons_of_pos _ (by simp [h3])] at h
    cases h
    exact ⟨by simp, h3, by simp [bind_apply, getRequired_eq, h1, h2, h3]⟩
  rw [List.find?_cons_of_neg _ (by simp [h3])] at h
  by_cases h4 : osGetenv w "DDNS_CLOUDFLARE_COMMENT" = ""
  · rw [List.find?_cons_of_pos _ (by simp [h4])] at h
    cases h
    exact ⟨by simp, h4, by simp [bind_apply, getRequired_eq, h1, h2, h3, h4]⟩
  rw [List.find?_cons_of_neg _ (by simp [h4])] at h
  simp at h

theorem main_zoneIDByName_err (w : World) (h : ValidConfig w) (api : API) (e : GoError)
    (hc : w.NewWithAPIToken (osGetenv w "DDNS_CLOUDFLARE_API_TOKEN") = .ok api)
    (hz : w.ZoneIDByName api (osGetenv w "DDNS_CLOUDFLARE_ZONE_NAME") = .err e) :
    main w [] = .exited 1 (parameterLines w ++
      [.newWithAPIToken (osGetenv w "DDNS_CLOUDFLARE_API_TOKEN") (.ok api),
       .zoneIDByName (osGetenv w "DDNS_CLOUDFLARE_ZONE_NAME") (.err e), .fatal e.Error]) := by
  obtain ⟨h1, h2, h3, h4⟩ := (validConfig_iff w).1 h
  unfold main
  simp only [bind_apply, getRequired_eq, getOptional_eq, ← publicIpEndpoint_eq,
    getPublicIp_publicIp, logPrint, emit, logFatal, pure_apply, h1, h2, h3, h4, if_false,
    List.nil_append, List.append_assoc, List.singleton_append, List.cons_append,
    parameterLines, traceToListing, listQuery, updateParams, createParams, hc, hz]

theorem main_listDNSRecords_err (w : World) (h : ValidConfig w) (api : API) (zoneId : String)
    (e : GoError)
    (hc : w.NewWithAPIToken (osGetenv w "DDNS_CLOUDFLARE_API_TOKEN") = .ok api)
    (hz : w.ZoneIDByName api (osGetenv w "DDNS_CLOUDFLARE_ZONE_NAME") = .ok zoneId)
    (hl : w.ListDNSRecords api zoneId (listQuery w) = .err e) :
    main w [] = .exited 1 (traceToListing w api zoneId ++ [.fatal e.Error]) := by
  unfold listQuery at hl
  obtain ⟨h1, h2, h3, h4⟩ := (validConfig_iff w).1 h
  unfold main
  simp only [bind_apply, getRequired_eq, getOptional_eq, ← publicIpEndpoint_eq,
    getPublicIp_publicIp, logPrint, emit, logFatal, pure_apply, h1, h2, h3, h4, if_false,
    List.nil_append, List.append_assoc, List.singleton_append, List.cons_append,
    parameterLines, traceToListing, listQuery, updateParams, createParams, hc, hz, hl]

theorem main_multiple (w : World) (allRecords : List DNSRecord) (api : API) (zoneId : String)
    (hr : ReachesReconciliation w api zoneId allRecords) (hn : 1 < allRecords.length) :
    main w [] = .exited 1 (traceToListing w api zoneId ++
      [.fatal ("Found multiple records for search A " ++ osGetenv w "DDNS_CLOUDFLARE_SUBDOMAIN"
        ++ ". Aborting.")]) := by
  obtain ⟨h, hc, hz, hl⟩ := hr
  unfold listQuery at hl
  obtain ⟨h1, h2, h3, h4⟩ := (validConfig_iff w).1 h
  unfold main
  simp only [bind_apply, getRequired_eq, getOptional_eq, ← publicIpEndpoint_eq,
    getPublicIp_publicIp, logPrint, emit, logFatal, pure_apply, h1, h2, h3, h4, if_false,
    List.nil_append, List.append_assoc, List.singleton_append, List.cons_append,
    parameterLines, traceToListing, listQuery, updateParams, createParams, hc, hz, hl, hn, gt_iff_lt, if_true]

theorem main_update_err (w : World) (r : DNSRecord) (api : API) (zoneId : String) (e : GoError)
    (hr : ReachesReconciliation w api zoneId [r])
    (hu : w.UpdateDNSRecord api zoneId (updateParams w r) = .err e) :
    main w [] = .exited 1 (traceToListing w api zoneId ++
      [.print ("Found existing record: " ++ r.Type_ ++ " " ++ r.Name ++ " -> " ++ r.Content
        ++ ". Will update..."),
       .updateDNSRecord zoneId (updateParams w r) (.err e), .fatal e.Error]) := by
  obtain ⟨h, hc, hz, hl⟩ := hr
  unfold listQuery at hl
  unfold updateParams at hu
  have hg : ∀ (p : 0 < [r].length), [r].get ⟨0, p⟩ = r := fun _ => rfl
  obtain ⟨h1, h2, h3, h4⟩ := (validConfig_iff w).1 h
  unfold main
  simp only [bind_apply, getRequired_eq, getOptional_eq, ← publicIpEndpoint_eq,
    getPublicIp_publicIp, logPrint, emit, logFatal, pure_apply, h1, h2, h3, h4, if_false,
    List.nil_append, List.append_assoc, List.singleton_append, List.cons_append,
    parameterLines, traceToListing, listQuery, updateParams, createParams, hc, hz, hl, hu, gt_iff_lt, List.length_singleton, lt_irrefl, dite_true, hg]

theorem main_update_ok (w : World) (r : DNSRecord) (api : API) (zoneId : String)
    (record : DNSRecord) (hr : ReachesReconciliation w api zoneId [r])
    (hu : w.UpdateDNSRecord api zoneId (updateParams w r) = .ok record) :
    main w [] = .returned () (traceToListing w api zoneId ++
      [.print ("Found existing record: " ++ r.Type_ ++ " " ++ r.Name ++ " -> " ++ r.Content
        ++ ". Will update..."),
       .updateDNSRecord zoneId (updateParams w r) (.ok record),
       .print ("Sucessfully updated record: " ++ record.Type_ ++ " " ++ record.Name ++ " -> "
        ++ record.Content)]) := by
  obtain ⟨h, hc, hz, hl⟩ := hr
  unfold listQuery at hl
  unfold updateParams at hu
  have hg : ∀ (p : 0 < [r].length), [r].get ⟨0, p⟩ = r := fun _ => rfl
  obtain ⟨h1, h2, h3, h4⟩ := (validConfig_iff w).1 h
  unfold main
  simp only [bind_apply, getRequired_eq, getOptional_eq, ← publicIpEndpoint_eq,
    getPublicIp_publicIp, logPrint, emit, logFatal, pure_apply, h1, h2, h3, h4, if_false,
    List.nil_append, List.append_assoc, List.singleton_append, List.cons_append,
    parameterLines, traceToListing, listQuery, updateParams, createParams, hc, hz, hl, hu, gt_iff_lt, List.length_singleton, lt_irrefl, dite_true, hg]

theorem main_create_err (w : World) (api : API) (zoneId : String) (e : GoError)
    (hr : ReachesReconciliation w api zoneId [])
    (hu : w.CreateDNSRecord api zoneId (createParams w) = .err e) :
    main w [] = .exited 1 (traceToListing w api zoneId ++
      [.print "Record doesn't exist yet. Will create...",
       .createDNSRecord zoneId (createParams w) (.err e), .fatal e.Error]) := by
  obtain ⟨h, hc, hz, hl⟩ := hr
  unfold listQuery at hl
  unfold createParams at hu
  obtain ⟨h1, h2, h3, h4⟩ := (validConfig_iff w).1 h
  unfold main
  simp only [bind_apply, getRequired_eq, getOptional_eq, ← publicIpEndpoint_eq,
    getPublicIp_publicIp, logPrint, emit, logFatal, pure_apply, h1, h2, h3, h4, if_false,
    List.nil_append, List.append_assoc, List.singleton_append, List.cons_append,
    parameterLines, traceToListing, listQuery, updateParams, createParams, hc, hz, hl, hu, gt_iff_lt, List.length_nil, Nat.not_lt_zero, zero_ne_one, dite_false]

theorem main_create_ok (w : World) (api : API) (zoneId : String) (record : DNSRecord)
    (hr : ReachesReconciliation w api zoneId [])
    (hu : w.CreateDNSRecord api zoneId (createParams w) = .ok record) :
    main w [] = .returned () (traceToListing w api zoneId ++
      [.print "Record doesn't exist yet. Will create...",
       .createDNSRecord zoneId (createParams w) (.ok record),
       .print ("Sucessfully created record: " ++ record.Type_ ++ " " ++ record.Name ++ " -> "
        ++ record.Content)]) := by
  obtain ⟨h, hc, hz, hl⟩ := hr
  unfold listQuery at hl
  unfold createParams at hu
  obtain ⟨h1, h2, h3, h4⟩ := (validConfig_iff w).1 h
  unfold main
  simp only [bind_apply, getRequired_eq, getOptional_eq, ← publicIpEndpoint_eq,
    getPublicIp_publicIp, logPrint, emit, logFatal, pure_apply, h1, h2, h3, h4, if_false,
    List.nil_append, List.append_assoc, List.singleton_append, List.cons_append,
    parameterLines, traceToListing, listQuery, updateParams, createParams, hc, hz, hl, hu, gt_iff_lt, List.length_nil, Nat.not_lt_zero, zero_ne_one, dite_false]

/-- Every run of `main` follows one of the nine paths. -/
theorem main_path (w : World) : MainPath w (main w []) := by
  cases hf : firstMissing w with
  | some name => rw [(main_config_err w name hf).2.2]; exact .config name hf
  | none =>
  have h : ValidConfig w := (firstMissing_eq_none_iff w).1 hf
  cases hc : w.NewWithAPIToken (osGetenv w "DDNS_CLOUDFLARE_API_TOKEN") with
  | err e => rw [main_newWithAPIToken_err w h e hc]; exact .client h e hc
  | ok api =>
  cases hz : w.ZoneIDByName api (osGetenv w "DDNS_CLOUDFLARE_ZONE_NAME") with
  | err e => rw [main_zoneIDByName_err w h api e hc hz]; exact .zone h api e hc hz
  | ok zoneId =>
  cases hl : w.ListDNSRecords api zoneId (listQuery w) with
  | err e => rw [main_listDNSRecords_err w h api zoneId e hc hz hl]; exact .listing h api zoneId e hc hz hl
  | ok allRecords =>
  have hr : ReachesReconciliation w api zoneId allRecords := ⟨h, hc, hz, hl⟩
  match allRecords, hr with
  | [], hr =>
    cases hu : w.CreateDNSRecord api zoneId (createParams w) with
    | err e => rw [main_create_err w api zoneId e hr hu]; exact .createErr api zoneId e hr hu
    | ok record => rw [main_create_ok w api zoneId record hr hu]; exact .createOk api zoneId record hr hu
  | [r], hr =>
    cases hu : w.UpdateDNSRecord api zoneId (updateParams w r) with
    | err e => rw [main_update_err w r api zoneId e hr hu]; exact .updateErr api zoneId r e hr hu
    | ok record => rw [main_update_ok w r api zoneId record hr hu]; exact .updateOk api zoneId r record hr hu
  | r1 :: r2 :: rest, hr =>
    have hn : 1 < (r1 :: r2 :: rest).length := by simp
    rw [main_multiple w _ api zoneId hr hn]; exact .multiple api zoneId _ hr hn

theorem run_of_returned (w : World) (u : Unit) (tr : List Event)
    (h : main w [] = .returned u tr) : run w = ⟨tr, 0⟩ := by
  simp only [run, h]

theorem run_of_exited (w : World) (c : Nat) (tr : List Event)
    (h : main w [] = .exited c tr) : run w = ⟨tr, c⟩ := by
  simp only [run, h]

theorem traceToListing_createCalls (w : World) (api : API) (zoneId : String) :
    createCalls (traceToListing w api zoneId) = 0 := by
  simp [createCalls, traceToListing, parameterLines, Event.isCreate]

theorem traceToListing_updateCalls (w : World) (api : API) (zoneId : String) :
    updateCalls (traceToListing w api zoneId) = 0 := by
  simp [updateCalls, traceToListing, parameterLines, Event.isUpdate]

theorem createCalls_append (a b : List Event) :
    createCalls (a ++ b) = createCalls a + createCalls b := by
  simp [createCalls]

theorem updateCalls_append (a b : List Event) :
    updateCalls (a ++ b) = updateCalls a + updateCalls b := by
  simp [updateCalls]

theorem osGetenv_eq_empty_iff (w : World) (name : String) :
    osGetenv w name = "" ↔ w.environ name = none ∨ w.environ name = some "" := by
  unfold osGetenv
  cases w.environ name <;> simp

theorem mem_traceToListing_not_create (w : World) (api : API) (zoneId z : String)
    (p : CreateDNSRecordParams) (res : Result DNSRecord) :
    Event.createDNSRecord z p res ∉ traceToListing w api zoneId := by
  simp [traceToListing, parameterLines]

theorem mem_traceToListing_not_update (w : World) (api : API) (zoneId z : String)
    (p : UpdateDNSRecordParams) (res : Result DNSRecord) :
    Event.updateDNSRecord z p res ∉ traceToListing w api zoneId := by
  simp [traceToListing, parameterLines]

/-- Client, zone and listing of a run are determined by the world. -/
theorem reaches_unique (w : World) (api1 api2 : API) (z1 z2 : String)
    (recs1 recs2 : List DNSRecord) (h1 : ReachesReconciliation w api1 z1 recs1)
    (h2 : ReachesReconciliation w api2 z2 recs2) :
    api1 = api2 ∧ z1 = z2 ∧ recs1 = recs2 := by
  obtain ⟨-, c1, n1, l1⟩ := h1
  obtain ⟨-, c2, n2, l2⟩ := h2
  rw [c1] at c2
  cases c2
  rw [n1] at n2
  cases n2
  rw [l1] at l2
  cases l2
  exact ⟨rfl, rfl, rfl⟩

/-- Every `CreateDNSRecord` call of a run is the one of the empty-listing
branch. -/
theorem create_mem_run (w : World) (z : String) (p : CreateDNSRecordParams)
    (res : Result DNSRecord) (h : Event.createDNSRecord z p res ∈ (run w).trace) :
    ∃ api, ReachesReconciliation w api z [] ∧ p = createParams w ∧
      res = w.CreateDNSRecord api z (createParams w) := by
  have hp := main_path w
  unfold run at h
  generalize main w [] = o at hp h
  cases hp with
  | createErr api zoneId e hr hu =>
    simp [mem_traceToListing_not_create] at h
    obtain ⟨h1, h2, h3⟩ := h
    subst h1 h2 h3
    exact ⟨api, hr, rfl, hu.symm⟩
  | createOk api zoneId record hr hu =>
    simp [mem_traceToListing_not_create] at h
    obtain ⟨h1, h2, h3⟩ := h
    subst h1 h2 h3
    exact ⟨api, hr, rfl, hu.symm⟩
  | _ => simp [mem_traceToListing_not_create, parameterLines, missingVariableMessage] at h

/-- Every `UpdateDNSRecord` call of a run is the one of the single-record
branch. -/
theorem update_mem_run (w : World) (z : String) (p : UpdateDNSRecordParams)
    (res : Result DNSRecord) (h : Event.updateDNSRecord z p res ∈ (run w).trace) :
    ∃ api r, ReachesReconciliation w api z [r] ∧ p = updateParams w r ∧
      res = w.UpdateDNSRecord api z (updateParams w r) := by
  have hp := main_path w
  unfold run at h
  generalize main w [] = o at hp h
  cases hp with
  | updateErr api zoneId r e hr hu =>
    simp [mem_traceToListing_not_update] at h
    obtain ⟨h1, h2, h3⟩ := h
    subst h1 h2 h3
    exact ⟨api, r, hr, rfl, hu.symm⟩
  | updateOk api zoneId r record hr hu =>
    simp [mem_traceToListing_not_update] at h
    obtain ⟨h1, h2, h3⟩ := h
    subst h1 h2 h3
    exact ⟨api, r, hr, rfl, hu.symm⟩
  | _ => simp [mem_traceToListing_not_update, parameterLines, missingVariableMessage] at h

/-- Once client and zone are resolved, the run goes on through discovery to
the listing call, whatever the discovery and the listing answer; what follows
holds no further GET and no further listing. -/
theorem run_from_listing (w : World) (api : API) (zoneId : String) (h : ValidConfig w)
    (hc : w.NewWithAPIToken (osGetenv w "DDNS_CLOUDFLARE_API_TOKEN") = .ok api)
    (hz : w.ZoneIDByName api (osGetenv w "DDNS_CLOUDFLARE_ZONE_NAME") = .ok zoneId) :
    ∃ rest, (run w).trace = traceToListing w api zoneId ++ rest ∧
      ∀ e ∈ rest, e.isList = false ∧ e.isGet = false := by
  cases hl : w.ListDNSRecords api zoneId (listQuery w) with
  | err e =>
    rw [run_of_exited w _ _ (main_listDNSRecords_err w h api zoneId e hc hz hl)]
    exact ⟨_, rfl, by simp [Event.isList, Event.isGet]⟩
  | ok allRecords =>
  have hr : ReachesReconciliation w api zoneId allRecords := ⟨h, hc, hz, hl⟩
  match allRecords, hr with
  | [], hr =>
    cases hu : w.CreateDNSRecord api zoneId (createParams w) with
    | err e =>
      rw [run_of_exited w _ _ (main_create_err w api zoneId e hr hu)]
      exact ⟨_, rfl, by simp [Event.isList, Event.isGet]⟩
    | ok record =>
      rw [run_of_returned w _ _ (main_create_ok w api zoneId record hr hu)]
      exact ⟨_, rfl, by simp [Event.isList, Event.isGet]⟩
  | [r], hr =>
    cases hu : w.UpdateDNSRecord api zoneId (updateParams w r) with
    | err e =>
      rw [run_of_exited w _ _ (main_update_err w r api zoneId e hr hu)]
      exact ⟨_, rfl, by simp [Event.isList, Event.isGet]⟩
    | ok record =>
      rw [run_of_returned w _ _ (main_update_ok w r api zoneId record hr hu)]
      exact ⟨_, rfl, by simp [Event.isList, Event.isGet]⟩
  | r1 :: r2 :: rest, hr =>
    have hn : 1 < (r1 :: r2 :: rest).length := by simp
    rw [run_of_exited w _ _ (main_multiple w _ api zoneId hr hn)]
    exact ⟨_, rfl, by simp [Event.isList, Event.isGet]⟩

/-- The mutation calls of a run that reaches the reconciliation branch are
counted by the length of the listing alone. -/
theorem reconciliation_counts (w : World) (api : API) (zoneId : String)
    (allRecords : List DNSRecord) (hr : ReachesReconciliation w api zoneId allRecords) :
    createCalls (run w).trace = (if allRecords.length = 0 then 1 else 0) ∧
    updateCalls (run w).trace = (if allRecords.length = 1 then 1 else 0) ∧
    (1 < allRecords.length → (run w).exitCode = 1) := by
  match allRecords, hr with
  | [], hr =>
    cases hu : w.CreateDNSRecord api zoneId (createParams w) with
    | err e =>
      rw [run_of_exited w _ _ (main_create_err w api zoneId e hr hu)]
      simp [createCalls_append, updateCalls_append, traceToListing_createCalls,
        traceToListing_updateCalls]
      simp [createCalls, updateCalls, Event.isCreate, Event.isUpdate]
    | ok record =>
      rw [run_of_returned w _ _ (main_create_ok w api zoneId record hr hu)]
      simp [createCalls_append, updateCalls_append, traceToListing_createCalls,
        traceToListing_updateCalls]
      simp [createCalls, updateCalls, Event.isCreate, Event.isUpdate]
  | [r], hr =>
    cases hu : w.UpdateDNSRecord api zoneId (updateParams w r) with
    | err e =>
      rw [run_of_exited w _ _ (main_update_err w r api zoneId e hr hu)]
      simp [createCalls_append, updateCalls_append, traceToListing_createCalls,
        traceToListing_updateCalls]
      simp [createCalls, updateCalls, Event.isCreate, Event.isUpdate]
    | ok record =>
      rw [run_of_returned w _ _ (main_update_ok w r api zoneId record hr hu)]
      simp [createCalls_append, updateCalls_append, traceToListing_createCalls,
        traceToListing_updateCalls]
      simp [createCalls, updateCalls, Event.isCreate, Event.isUpdate]
  | r1 :: r2 :: rest, hr =>
    have hn : 1 < (r1 :: r2 :: rest).length := by simp
    rw [run_of_exited w _ _ (main_multiple w _ api zoneId hr hn)]
    simp [createCalls_append, updateCalls_append, traceToListing_createCalls,
      traceToListing_updateCalls]
    simp [createCalls, updateCalls, Event.isCreate, Event.isUpdate]

/-- Every GET of a run goes to the endpoint `main` binds. -/
theorem get_mem_run (w : World) (url : String) (res : Result Response)
    (h : Event.get url res ∈ (run w).trace) :
    url = publicIpEndpoint w ∧ res = w.httpGet (publicIpEndpoint w) := by
  have hp := main_path w
  unfold run at h
  generalize main w [] = o at hp h
  cases hp <;> simp [traceToListing, parameterLines] at h <;> exact h

theorem logLines_append (a b : List Event) : logLines (a ++ b) = logLines a ++ logLines b := by
  simp [logLines]

/-- What two runs that differ only in the token share. -/
theorem same_inputs (w1 w2 : World)
    (henv : ∀ name, name ≠ "DDNS_CLOUDFLARE_API_TOKEN" → w1.environ name = w2.environ name)
    (ht1 : osGetenv w1 "DDNS_CLOUDFLARE_API_TOKEN" ≠ "")
    (ht2 : osGetenv w2 "DDNS_CLOUDFLARE_API_TOKEN" ≠ "")
    (hget : w1.httpGet = w2.httpGet) :
    osGetenv w1 "DDNS_CLOUDFLARE_ZONE_NAME" = osGetenv w2 "DDNS_CLOUDFLARE_ZONE_NAME" ∧
    osGetenv w1 "DDNS_CLOUDFLARE_SUBDOMAIN" = osGetenv w2 "DDNS_CLOUDFLARE_SUBDOMAIN" ∧
    osGetenv w1 "DDNS_CLOUDFLARE_COMMENT" = osGetenv w2 "DDNS_CLOUDFLARE_COMMENT" ∧
    publicIpEndpoint w1 = publicIpEndpoint w2 ∧
    publicIp w1 = publicIp w2 ∧
    firstMissing w1 = firstMissing w2 := by
  have hE : ∀ name, name ≠ "DDNS_CLOUDFLARE_API_TOKEN" → osGetenv w1 name = osGetenv w2 name := by
    intro name hne
    unfold osGetenv
    rw [henv name hne]
  have hz := hE "DDNS_CLOUDFLARE_ZONE_NAME" (by decide)
  have hs := hE "DDNS_CLOUDFLARE_SUBDOMAIN" (by decide)
  have hc := hE "DDNS_CLOUDFLARE_COMMENT" (by decide)
  have hp := hE "DDNS_PUBLIC_IP_ENDPOINT" (by decide)
  have hpe : publicIpEndpoint w1 = publicIpEndpoint w2 := by
    rw [publicIpEndpoint_eq, publicIpEndpoint_eq, hp]
  refine ⟨hz, hs, hc, hpe, ?_, ?_⟩
  · rw [publicIp_eq, publicIp_eq, hpe, hget]
  · have f1 : firstMissing w1 = List.find? (fun name => osGetenv w1 name == "")
        ["DDNS_CLOUDFLARE_ZONE_NAME", "DDNS_CLOUDFLARE_SUBDOMAIN", "DDNS_CLOUDFLARE_COMMENT"] :=
      List.find?_cons_of_neg _ (by simp [ht1])
    have f2 : firstMissing w2 = List.find? (fun name => osGetenv w2 name == "")
        ["DDNS_CLOUDFLARE_ZONE_NAME", "DDNS_CLOUDFLARE_SUBDOMAIN", "DDNS_CLOUDFLARE_COMMENT"] :=
      List.find?_cons_of_neg _ (by simp [ht2])
    rw [f1, f2]
    simp only [List.find?, hz, hs, hc]

/-! ## Sample runs -/

/-- No record listed, discovery answers `203.0.113.5`: one create call, exit
code 0. -/
theorem run_sampleWorld_create :
    run (sampleWorld []) =
      ⟨[.print "Running Cloudflare DDNS with the following parameters:",
        .print "- API Token: REDACTED",
        .print "- Zone Name: example.com",
        .print "- Subdomain: home",
        .print "- Comment: ddns",
        .print "- Public IP Endpoint: https://ipinfo.io/ip",
        .newWithAPIToken "tok" (.ok ⟨"tok"⟩),
        .zoneIDByName "example.com" (.ok "z1"),
        .get "https://ipinfo.io/ip" (.ok ⟨.ok "203.0.113.5"⟩),
        .print "Current public IP address is: 203.0.113.5",
        .print "Searching existing records...",
        .listDNSRecords "z1" { Type_ := "A", Name := "home.example.com" } (.ok []),
        .print "Record doesn't exist yet. Will create...",
        .createDNSRecord "z1"
          { Type_ := "A", Name := "home", Content := "203.0.113.5", Comment := "ddns" }
          (.ok { ID := "new", Type_ := "A", Name := "home.example.com",
                 Content := "203.0.113.5", Comment := "ddns" }),
        .print "Sucessfully created record: A home.example.com -> 203.0.113.5"], 0⟩ := by
  decide

/-- One record listed with content `203.0.113.1`: one update call on its
identifier, exit code 0. -/
theorem run_sampleWorld_update :
    run (sampleWorld [sampleRecord]) =
      ⟨[.print "Running Cloudflare DDNS with the following parameters:",
        .print "- API Token: REDACTED",
        .print "- Zone Name: example.com",
        .print "- Subdomain: home",
        .print "- Comment: ddns",
        .print "- Public IP Endpoint: https://ipinfo.io/ip",
        .newWithAPIToken "tok" (.ok ⟨"tok"⟩),
        .zoneIDByName "example.com" (.ok "z1"),
        .get "https://ipinfo.io/ip" (.ok ⟨.ok "203.0.113.5"⟩),
        .print "Current public IP address is: 203.0.113.5",
        .print "Searching existing records...",
        .listDNSRecords "z1" { Type_ := "A", Name := "home.example.com" } (.ok [sampleRecord]),
        .print "Found existing record: A home.example.com -> 203.0.113.1. Will update...",
        .updateDNSRecord "z1"
          { ID := "id1", Type_ := "A", Name := "home", Content := "203.0.113.5",
            Comment := some "ddns" }
          (.ok { ID := "id1", Type_ := "A", Name := "home.example.com",
                 Content := "203.0.113.5", Comment := "ddns" }),
        .print "Sucessfully updated record: A home.example.com -> 203.0.113.5"], 0⟩ := by
  decide

/-- Two records listed: no create or update call, exit code 1. -/
theorem run_sampleWorld_multiple :
    run (sampleWorld [sampleRecord, sampleRecord]) =
      ⟨[.print "Running Cloudflare DDNS with the following parameters:",
        .print "- API Token: REDACTED",
        .print "- Zone Name: example.com",
        .print "- Subdomain: home",
        .print "- Comment: ddns",
        .print "- Public IP Endpoint: https://ipinfo.io/ip",
        .newWithAPIToken "tok" (.ok ⟨"tok"⟩),
        .zoneIDByName "example.com" (.ok "z1"),
        .get "https://ipinfo.io/ip" (.ok ⟨.ok "203.0.113.5"⟩),
        .print "Current public IP address is: 203.0.113.5",
        .print "Searching existing records...",
        .listDNSRecords "z1" { Type_ := "A", Name := "home.example.com" }
          (.ok [sampleRecord, sampleRecord]),
        .fatal "Found multiple records for search A home. Aborting."], 1⟩ := by
  decide

/-- A required variable set to the empty string: one fatal line, exit code 1. -/
theorem run_sampleWorldEmptySubdomain :
    run sampleWorldEmptySubdomain =
      ⟨[.fatal "Expected environment variable DDNS_CLOUDFLARE_SUBDOMAIN not found or not set."],
        1⟩ := by
  decide

/-! ## The claims -/

/-- C1: in every run that reaches the reconciliation branch with the listing
`allRecords`: with no record exactly one `CreateDNSRecord` call and no
`UpdateDNSRecord` call is issued; with one record exactly one
`UpdateDNSRecord` call and no `CreateDNSRecord` call; with two or more neither
is issued and the run ends with exit code 1 on a fatal log line. -/
theorem reconciliation_three_way (w : World) (api : API) (zoneId : String)
    (allRecords : List DNSRecord) (hr : ReachesReconciliation w api zoneId allRecords) :
    (allRecords.length = 0 →
      createCalls (run w).trace = 1 ∧ updateCalls (run w).trace = 0) ∧
    (allRecords.length = 1 →
      updateCalls (run w).trace = 1 ∧ createCalls (run w).trace = 0) ∧
    (2 ≤ allRecords.length →
      createCalls (run w).trace = 0 ∧ updateCalls (run w).trace = 0 ∧
      (run w).exitCode = 1 ∧
      (run w).trace.getLast? = some (.fatal ("Found multiple records for search A "
        ++ osGetenv w "DDNS_CLOUDFLARE_SUBDOMAIN" ++ ". Aborting."))) := by
  match allRecords, hr with
  | [], hr =>
    refine ⟨fun _ => ?_, fun h => by simp at h, fun h => by simp at h⟩
    cases hu : w.CreateDNSRecord api zoneId (createParams w) with
    | err e =>
      simp [run, main_create_err w api zoneId e hr hu, createCalls_append, updateCalls_append,
        traceToListing_createCalls, traceToListing_updateCalls]
      simp [createCalls, updateCalls, Event.isCreate, Event.isUpdate]
    | ok record =>
      simp [run, main_create_ok w api zoneId record hr hu, createCalls_append,
        updateCalls_append, traceToListing_createCalls, traceToListing_updateCalls]
      simp [createCalls, updateCalls, Event.isCreate, Event.isUpdate]
  | [r], hr =>
    refine ⟨fun h => by simp at h, fun _ => ?_, fun h => by simp at h⟩
    cases hu : w.UpdateDNSRecord api zoneId (updateParams w r) with
    | err e =>
      simp [run, main_update_err w r api zoneId e hr hu, createCalls_append, updateCalls_append,
        traceToListing_createCalls, traceToListing_updateCalls]
      simp [createCalls, updateCalls, Event.isCreate, Event.isUpdate]
    | ok record =>
      simp [run, main_update_ok w r api zoneId record hr hu, createCalls_append,
        updateCalls_append, traceToListing_createCalls, traceToListing_updateCalls]
      simp [createCalls, updateCalls, Event.isCreate, Event.isUpdate]
  | r1 :: r2 :: rest, hr =>
    have hn : 1 < (r1 :: r2 :: rest).length := by simp
    refine ⟨fun h => by simp at h, fun h => by simp at h, fun _ => ?_⟩
    simp [run, main_multiple w _ api zoneId hr hn, createCalls_append, updateCalls_append,
      traceToListing_createCalls, traceToListing_updateCalls]
    simp [createCalls, updateCalls, Event.isCreate, Event.isUpdate]

/-- C1 at sample worlds: an empty listing gives one create call, a listing
of two records gives no mutation call and exit code 1. -/
theorem reconciliation_three_way_witness :
    ReachesReconciliation (sampleWorld []) ⟨"tok"⟩ "z1" [] ∧
    (createCalls (run (sampleWorld [])).trace = 1 ∧
      updateCalls (run (sampleWorld [])).trace = 0) ∧
    (createCalls (run (sampleWorld [sampleRecord, sampleRecord])).trace = 0 ∧
      updateCalls (run (sampleWorld [sampleRecord, sampleRecord])).trace = 0 ∧
      (run (sampleWorld [sampleRecord, sampleRecord])).exitCode = 1) :=
  ⟨by decide,
   (reconciliation_three_way (sampleWorld []) ⟨"tok"⟩ "z1" [] (by decide)).1 rfl,
   let h := (reconciliation_three_way (sampleWorld [sampleRecord, sampleRecord]) ⟨"tok"⟩ "z1"
    [sampleRecord, sampleRecord] (by decide)).2.2 (by decide)
   ⟨h.1, h.2.1, h.2.2.1⟩⟩

/-- C2: when one of the four required variables is unset or empty, `main`
prints a single fatal line naming a required variable that is unset or empty
and exits with code 1; that line is the whole trace, so no network call was
issued.  `getRequiredEnvironmentVariable` ends the process on such a variable
and returns only a non-empty value that is the environment's value. -/
theorem required_variable_missing_is_fatal (w : World) (name : String)
    (hn : name ∈ requiredVariables)
    (hu : w.environ name = none ∨ w.environ name = some "") :
    (∃ missing ∈ requiredVariables,
      (w.environ missing = none ∨ w.environ missing = some "") ∧
      run w = ⟨[.fatal ("Expected environment variable " ++ missing
        ++ " not found or not set.")], 1⟩) ∧
    (∀ e ∈ (run w).trace, e.isNetworkCall = false) ∧
    (∀ tr, getRequiredEnvironmentVariable w name tr =
      .exited 1 (tr ++ [.fatal ("Expected environment variable " ++ name
        ++ " not found or not set.")])) ∧
    (∀ (w1 : World) (n : String) (tr : List Event) (v : String) (tr1 : List Event),
      getRequiredEnvironmentVariable w1 n tr = .returned v tr1 →
        v ≠ "" ∧ w1.environ n = some v ∧ tr1 = tr) := by
  have hnv : ¬ ValidConfig w := fun h => h name hn ((osGetenv_eq_empty_iff w name).2 hu)
  cases hf : firstMissing w with
  | none => exact absurd ((firstMissing_eq_none_iff w).1 hf) hnv
  | some missing =>
  obtain ⟨hm, he, hrun⟩ := main_config_err w missing hf
  have hr : run w = ⟨[.fatal ("Expected environment variable " ++ missing
      ++ " not found or not set.")], 1⟩ := by
    simp [run, hrun, missingVariableMessage]
  refine ⟨⟨missing, hm, (osGetenv_eq_empty_iff w missing).1 he, hr⟩, ?_, ?_, ?_⟩
  · intro e he
    rw [hr] at he
    simp at he
    subst he
    rfl
  · intro tr
    rw [getRequired_eq, if_pos ((osGetenv_eq_empty_iff w name).2 hu)]
  · intro w1 n tr v tr1 h
    rw [getRequired_eq] at h
    by_cases hv : osGetenv w1 n = ""
    · simp [hv] at h
    · simp only [hv, if_false, Outcome.returned.injEq] at h
      obtain ⟨h1, h2⟩ := h
      subst h1
      refine ⟨hv, ?_, h2.symm⟩
      unfold osGetenv at hv ⊢
      cases hw : w1.environ n with
      | none => simp [hw] at hv
      | some x => simp

/-- C2 at a sample world whose subdomain variable is set to the empty
string: the run is the single fatal line naming it. -/
theorem required_variable_missing_is_fatal_witness :
    "DDNS_CLOUDFLARE_SUBDOMAIN" ∈ requiredVariables ∧
    (sampleWorldEmptySubdomain.environ "DDNS_CLOUDFLARE_SUBDOMAIN" = none ∨
      sampleWorldEmptySubdomain.environ "DDNS_CLOUDFLARE_SUBDOMAIN" = some "") ∧
    (∀ e ∈ (run sampleWorldEmptySubdomain).trace, e.isNetworkCall = false) ∧
    (∀ tr, getRequiredEnvironmentVariable sampleWorldEmptySubdomain
      "DDNS_CLOUDFLARE_SUBDOMAIN" tr =
      .exited 1 (tr ++ [.fatal ("Expected environment variable "
        ++ "DDNS_CLOUDFLARE_SUBDOMAIN" ++ " not found or not set.")])) :=
  ⟨by decide, Or.inr (by decide),
   (required_variable_missing_is_fatal sampleWorldEmptySubdomain "DDNS_CLOUDFLARE_SUBDOMAIN"
      (by decide) (Or.inr (by decide))).2.1,
   (required_variable_missing_is_fatal sampleWorldEmptySubdomain "DDNS_CLOUDFLARE_SUBDOMAIN"
      (by decide) (Or.inr (by decide))).2.2.1⟩

/-- C3 as stated fails: with an empty listing the create call carries the
bare subdomain `home` as `Name`, while the listing query carried
`home.example.com`. -/
theorem create_name_counterexample :
    ReachesReconciliation (sampleWorld []) ⟨"tok"⟩ "z1" [] ∧
    (run (sampleWorld [])).trace.filter Event.isCreate =
      [.createDNSRecord "z1"
        { Type_ := "A", Name := "home", Content := "203.0.113.5", Comment := "ddns" }
        (.ok { ID := "new", Type_ := "A", Name := "home.example.com",
               Content := "203.0.113.5", Comment := "ddns" })] ∧
    Event.listDNSRecords "z1" { Type_ := "A", Name := "home.example.com" } (.ok []) ∈
      (run (sampleWorld [])).trace ∧
    "home" ≠ osGetenv (sampleWorld []) "DDNS_CLOUDFLARE_SUBDOMAIN" ++ "." ++
      osGetenv (sampleWorld []) "DDNS_CLOUDFLARE_ZONE_NAME" :=
  ⟨by decide, by decide, by decide, by decide⟩

/-- C3, amended: in every run whose listing returns no record, exactly one
`CreateDNSRecord` call is issued, in the resolved zone, with `Type` the
literal `A`, `Name` the configured subdomain alone, `Content` the observed
public IP value and `Comment` the configured comment. -/
theorem create_call_parameters (w : World) (api : API) (zoneId : String)
    (hr : ReachesReconciliation w api zoneId []) :
    createCalls (run w).trace = 1 ∧
    (∃ res, Event.createDNSRecord zoneId
      { Type_ := "A", Name := osGetenv w "DDNS_CLOUDFLARE_SUBDOMAIN",
        Content := publicIp w, Comment := osGetenv w "DDNS_CLOUDFLARE_COMMENT" } res
      ∈ (run w).trace) ∧
    (∀ z p res, Event.createDNSRecord z p res ∈ (run w).trace →
      z = zoneId ∧ p.Type_ = "A" ∧ p.Name = osGetenv w "DDNS_CLOUDFLARE_SUBDOMAIN" ∧
      p.Content = publicIp w ∧ p.Comment = osGetenv w "DDNS_CLOUDFLARE_COMMENT") := by
  cases hu : w.CreateDNSRecord api zoneId (createParams w) with
  | err e =>
    have hrun := run_of_exited w _ _ (main_create_err w api zoneId e hr hu)
    rw [hrun]
    refine ⟨?_, ⟨.err e, by simp [createParams]⟩, ?_⟩
    · rw [createCalls_append, traceToListing_createCalls]
      simp [createCalls, Event.isCreate]
    · intro z p res hmem
      simp [mem_traceToListing_not_create, createParams] at hmem
      obtain ⟨h1, h2, -⟩ := hmem
      subst h1 h2
      simp
  | ok record =>
    have hrun := run_of_returned w _ _ (main_create_ok w api zoneId record hr hu)
    rw [hrun]
    refine ⟨?_, ⟨.ok record, by simp [createParams]⟩, ?_⟩
    · rw [createCalls_append, traceToListing_createCalls]
      simp [createCalls, Event.isCreate]
    · intro z p res hmem
      simp [mem_traceToListing_not_create, createParams] at hmem
      obtain ⟨h1, h2, -⟩ := hmem
      subst h1 h2
      simp

/-- C3, amended, at the sample world with an empty listing. -/
theorem create_call_parameters_witness :
    ReachesReconciliation (sampleWorld []) ⟨"tok"⟩ "z1" [] ∧
    createCalls (run (sampleWorld [])).trace = 1 ∧
    (∀ z p res, Event.createDNSRecord z p res ∈ (run (sampleWorld [])).trace →
      z = "z1" ∧ p.Type_ = "A" ∧
      p.Name = osGetenv (sampleWorld []) "DDNS_CLOUDFLARE_SUBDOMAIN" ∧
      p.Content = publicIp (sampleWorld []) ∧
      p.Comment = osGetenv (sampleWorld []) "DDNS_CLOUDFLARE_COMMENT") :=
  ⟨by decide,
   (create_call_parameters (sampleWorld []) ⟨"tok"⟩ "z1" (by decide)).1,
   (create_call_parameters (sampleWorld []) ⟨"tok"⟩ "z1" (by decide)).2.2⟩

/-- C4 as stated fails: the listed record is named `home.example.com`, the
update call carries the bare subdomain `home` as `Name`. -/
theorem update_name_counterexample :
    ReachesReconciliation (sampleWorld [sampleRecord]) ⟨"tok"⟩ "z1" [sampleRecord] ∧
    (run (sampleWorld [sampleRecord])).trace.filter Event.isUpdate =
      [.updateDNSRecord "z1"
        { ID := "id1", Type_ := "A", Name := "home", Content := "203.0.113.5",
          Comment := some "ddns" }
        (.ok { ID := "id1", Type_ := "A", Name := "home.example.com",
               Content := "203.0.113.5", Comment := "ddns" })] ∧
    sampleRecord.Name = "home.example.com" ∧
    "home" ≠ sampleRecord.Name :=
  ⟨by decide, by decide, by decide, by decide⟩

/-- C4, amended: in every run whose listing returns exactly one record `r`,
exactly one `UpdateDNSRecord` call is issued, in the resolved zone; it carries
`r`'s identifier, and sets `Type` to the literal `A`, `Name` to the configured
subdomain, `Content` to the observed public IP value and `Comment` to the
configured comment.  Nothing else of `r` enters the call. -/
theorem update_call_parameters (w : World) (api : API) (zoneId : String) (r : DNSRecord)
    (hr : ReachesReconciliation w api zoneId [r]) :
    updateCalls (run w).trace = 1 ∧
    (∃ res, Event.updateDNSRecord zoneId
      { ID := r.ID, Type_ := "A", Name := osGetenv w "DDNS_CLOUDFLARE_SUBDOMAIN",
        Content := publicIp w, Comment := some (osGetenv w "DDNS_CLOUDFLARE_COMMENT") } res
      ∈ (run w).trace) ∧
    (∀ z p res, Event.updateDNSRecord z p res ∈ (run w).trace →
      z = zoneId ∧ p.ID = r.ID ∧ p.Type_ = "A" ∧
      p.Name = osGetenv w "DDNS_CLOUDFLARE_SUBDOMAIN" ∧
      p.Content = publicIp w ∧ p.Comment = some (osGetenv w "DDNS_CLOUDFLARE_COMMENT")) := by
  cases hu : w.UpdateDNSRecord api zoneId (updateParams w r) with
  | err e =>
    have hrun := run_of_exited w _ _ (main_update_err w r api zoneId e hr hu)
    rw [hrun]
    refine ⟨?_, ⟨.err e, by simp [updateParams]⟩, ?_⟩
    · rw [updateCalls_append, traceToListing_updateCalls]
      simp [updateCalls, Event.isUpdate]
    · intro z p res hmem
      simp [mem_traceToListing_not_update, updateParams] at hmem
      obtain ⟨h1, h2, -⟩ := hmem
      subst h1 h2
      simp
  | ok record =>
    have hrun := run_of_returned w _ _ (main_update_ok w r api zoneId record hr hu)
    rw [hrun]
    refine ⟨?_, ⟨.ok record, by simp [updateParams]⟩, ?_⟩
    · rw [updateCalls_append, traceToListing_updateCalls]
      simp [updateCalls, Event.isUpdate]
    · intro z p res hmem
      simp [mem_traceToListing_not_update, updateParams] at hmem
      obtain ⟨h1, h2, -⟩ := hmem
      subst h1 h2
      simp

/-- C4, amended, at the sample world whose listing is the one sample record. -/
theorem update_call_parameters_witness :
    ReachesReconciliation (sampleWorld [sampleRecord]) ⟨"tok"⟩ "z1" [sampleRecord] ∧
    updateCalls (run (sampleWorld [sampleRecord])).trace = 1 ∧
    (∀ z p res, Event.updateDNSRecord z p res ∈ (run (sampleWorld [sampleRecord])).trace →
      z = "z1" ∧ p.ID = sampleRecord.ID ∧ p.Type_ = "A" ∧
      p.Name = osGetenv (sampleWorld [sampleRecord]) "DDNS_CLOUDFLARE_SUBDOMAIN" ∧
      p.Content = publicIp (sampleWorld [sampleRecord]) ∧
      p.Comment = some (osGetenv (sampleWorld [sampleRecord]) "DDNS_CLOUDFLARE_COMMENT")) :=
  ⟨by decide,
   (update_call_parameters (sampleWorld [sampleRecord]) ⟨"tok"⟩ "z1" sampleRecord
      (by decide)).1,
   (update_call_parameters (sampleWorld [sampleRecord]) ⟨"tok"⟩ "z1" sampleRecord
      (by decide)).2.2⟩

/-- C5: when the GET and the body read succeed with body `b`, `getPublicIp`
returns exactly `b`; and every create or update call of a run whose discovery
endpoint answered `b` carries `b` unchanged as `Content`. -/
theorem publicIp_is_raw_body (w : World) (endpoint : String) (resp : Response) (b : String)
    (hget : w.httpGet endpoint = .ok resp) (hbody : resp.Body = .ok b) :
    (∀ tr, getPublicIp w endpoint tr = .returned b (tr ++ [.get endpoint (.ok resp)])) ∧
    (endpoint = publicIpEndpoint w →
      (∀ z p res, Event.createDNSRecord z p res ∈ (run w).trace → p.Content = b) ∧
      (∀ z p res, Event.updateDNSRecord z p res ∈ (run w).trace → p.Content = b)) := by
  refine ⟨fun tr => ?_, fun he => ?_⟩
  · rw [getPublicIp_eq, hget]
    simp [hbody]
  · have hip : publicIp w = b := by
      rw [publicIp_eq, ← he, hget]
      simp [hbody]
    refine ⟨fun z p res hm => ?_, fun z p res hm => ?_⟩
    · obtain ⟨api, -, hp, -⟩ := create_mem_run w z p res hm
      rw [hp, ← hip]; rfl
    · obtain ⟨api, r, -, hp, -⟩ := update_mem_run w z p res hm
      rw [hp, ← hip]; rfl

/-- C5 at the sample worlds: the endpoint answers `203.0.113.5`, and that is
the `Content` of the create call (empty listing) and of the update call (one
record). -/
theorem publicIp_is_raw_body_witness :
    (sampleWorld []).httpGet "https://ipinfo.io/ip" = .ok ⟨.ok "203.0.113.5"⟩ ∧
    (∀ tr, getPublicIp (sampleWorld []) "https://ipinfo.io/ip" tr =
      .returned "203.0.113.5" (tr ++ [.get "https://ipinfo.io/ip" (.ok ⟨.ok "203.0.113.5"⟩)])) ∧
    (∀ z p res, Event.createDNSRecord z p res ∈ (run (sampleWorld [])).trace →
      p.Content = "203.0.113.5") ∧
    createCalls (run (sampleWorld [])).trace = 1 ∧
    (∀ z p res, Event.updateDNSRecord z p res ∈ (run (sampleWorld [sampleRecord])).trace →
      p.Content = "203.0.113.5") ∧
    updateCalls (run (sampleWorld [sampleRecord])).trace = 1 :=
  ⟨rfl,
   (publicIp_is_raw_body (sampleWorld []) "https://ipinfo.io/ip" ⟨.ok "203.0.113.5"⟩
     "203.0.113.5" rfl rfl).1,
   ((publicIp_is_raw_body (sampleWorld []) "https://ipinfo.io/ip" ⟨.ok "203.0.113.5"⟩
     "203.0.113.5" rfl rfl).2 (by decide)).1,
   by decide,
   ((publicIp_is_raw_body (sampleWorld [sampleRecord]) "https://ipinfo.io/ip"
     ⟨.ok "203.0.113.5"⟩ "203.0.113.5" rfl rfl).2 (by decide)).2,
   by decide⟩

/-- C6: `getPublicIp` always returns.  When the GET fails at the transport
level with error `e`, or the body read fails with `e`, it returns the text of
`e`; a run whose client and zone resolved then logs that text as the public IP
and issues the listing call, issues one create or update call when the listing
has at most one record, and every create or update call carries the text of
`e` as `Content`. -/
theorem publicIp_failure_is_data (w : World) (endpoint : String) (e : GoError)
    (hfail : w.httpGet endpoint = .err e ∨
      ∃ resp, w.httpGet endpoint = .ok resp ∧ resp.Body = .err e) :
    (∀ (w1 : World) (ep : String) (tr : List Event),
      ∃ v, getPublicIp w1 ep tr = .returned v (tr ++ [.get ep (w1.httpGet ep)])) ∧
    (∀ tr, getPublicIp w endpoint tr =
      .returned e.Error (tr ++ [.get endpoint (w.httpGet endpoint)])) ∧
    (endpoint = publicIpEndpoint w →
      (∀ api zoneId, ValidConfig w →
        w.NewWithAPIToken (osGetenv w "DDNS_CLOUDFLARE_API_TOKEN") = .ok api →
        w.ZoneIDByName api (osGetenv w "DDNS_CLOUDFLARE_ZONE_NAME") = .ok zoneId →
        [Event.get endpoint (w.httpGet endpoint),
         Event.print ("Current public IP address is: " ++ e.Error),
         Event.print "Searching existing records...",
         Event.listDNSRecords zoneId
           { Type_ := "A", Name := osGetenv w "DDNS_CLOUDFLARE_SUBDOMAIN" ++ "." ++
               osGetenv w "DDNS_CLOUDFLARE_ZONE_NAME" }
           (w.ListDNSRecords api zoneId
             { Type_ := "A", Name := osGetenv w "DDNS_CLOUDFLARE_SUBDOMAIN" ++ "." ++
                 osGetenv w "DDNS_CLOUDFLARE_ZONE_NAME" })] <:+: (run w).trace ∧
        ∀ allRecords, w.ListDNSRecords api zoneId
            { Type_ := "A", Name := osGetenv w "DDNS_CLOUDFLARE_SUBDOMAIN" ++ "." ++
                osGetenv w "DDNS_CLOUDFLARE_ZONE_NAME" } = .ok allRecords →
          allRecords.length ≤ 1 →
          createCalls (run w).trace + updateCalls (run w).trace = 1) ∧
      (∀ z p res, Event.createDNSRecord z p res ∈ (run w).trace → p.Content = e.Error) ∧
      (∀ z p res, Event.updateDNSRecord z p res ∈ (run w).trace → p.Content = e.Error)) := by
  have hval : (match w.httpGet endpoint with
      | .err e => e.Error
      | .ok req => match req.Body with
        | .err e => e.Error
        | .ok body => body) = e.Error := by
    rcases hfail with h | ⟨resp, h, hb⟩
    · rw [h]
    · rw [h]; simp only [hb]
  refine ⟨fun w1 ep tr => ⟨_, getPublicIp_eq w1 ep tr⟩, fun tr => ?_, fun he => ?_⟩
  · rw [getPublicIp_eq, hval]
  · have hip : publicIp w = e.Error := by rw [publicIp_eq, ← he, hval]
    refine ⟨fun api zoneId hv hc hz => ⟨?_, fun allRecords hl hlen => ?_⟩,
      fun z p res hm => ?_, fun z p res hm => ?_⟩
    · obtain ⟨rest, hrest, -⟩ := run_from_listing w api zoneId hv hc hz
      refine ⟨parameterLines w ++
        [.newWithAPIToken (osGetenv w "DDNS_CLOUDFLARE_API_TOKEN") (.ok api),
         .zoneIDByName (osGetenv w "DDNS_CLOUDFLARE_ZONE_NAME") (.ok zoneId)], rest, ?_⟩
      rw [hrest, he, ← hip]
      simp [traceToListing, listQuery]
    · have hc := reconciliation_counts w api zoneId allRecords ⟨hv, hc, hz, hl⟩
      rw [hc.1, hc.2.1]
      rcases Nat.le_one_iff_eq_zero_or_eq_one.1 hlen with h0 | h1
      · simp [h0]
      · simp [h1]
    · obtain ⟨api, -, hp, -⟩ := create_mem_run w z p res hm
      rw [hp, ← hip]; rfl
    · obtain ⟨api, r, -, hp, -⟩ := update_mem_run w z p res hm
      rw [hp, ← hip]; rfl

/-- C6 at sample worlds: with an unreachable endpoint the run still creates
the record, with the error text as `Content`; with an unreadable body and one
listed record it still updates, with the error text as `Content`. -/
theorem publicIp_failure_is_data_witness :
    (sampleWorldGetFails []).httpGet "https://ipinfo.io/ip" = .err ⟨"dial tcp: i/o timeout"⟩ ∧
    (∀ tr, getPublicIp (sampleWorldGetFails []) "https://ipinfo.io/ip" tr =
      .returned "dial tcp: i/o timeout"
        (tr ++ [.get "https://ipinfo.io/ip" (.err ⟨"dial tcp: i/o timeout"⟩)])) ∧
    (∀ z p res, Event.createDNSRecord z p res ∈ (run (sampleWorldGetFails [])).trace →
      p.Content = "dial tcp: i/o timeout") ∧
    (run (sampleWorldGetFails [])).trace.filter Event.isCreate =
      [.createDNSRecord "z1"
        { Type_ := "A", Name := "home", Content := "dial tcp: i/o timeout", Comment := "ddns" }
        (.ok { ID := "new", Type_ := "A", Name := "home.example.com",
               Content := "dial tcp: i/o timeout", Comment := "ddns" })] ∧
    (run (sampleWorldGetFails [])).exitCode = 0 ∧
    (∀ z p res, Event.updateDNSRecord z p res ∈
        (run (sampleWorldReadFails [sampleRecord])).trace → p.Content = "unexpected EOF") ∧
    updateCalls (run (sampleWorldReadFails [sampleRecord])).trace = 1 :=
  ⟨rfl,
   (publicIp_failure_is_data (sampleWorldGetFails []) "https://ipinfo.io/ip"
     ⟨"dial tcp: i/o timeout"⟩ (Or.inl rfl)).2.1,
   ((publicIp_failure_is_data (sampleWorldGetFails []) "https://ipinfo.io/ip"
     ⟨"dial tcp: i/o timeout"⟩ (Or.inl rfl)).2.2 (by decide)).2.1,
   by decide, by decide,
   ((publicIp_failure_is_data (sampleWorldReadFails [sampleRecord]) "https://ipinfo.io/ip"
     ⟨"unexpected EOF"⟩ (Or.inr ⟨⟨.err ⟨"unexpected EOF"⟩⟩, rfl, rfl⟩)).2.2 (by decide)).2.2,
   by decide⟩

/-- C7: with a valid configuration whose zone resolves to `zoneId`, the run
issues exactly one `ListDNSRecords` call, in zone `zoneId`, with `Type` the
literal `A` and `Name` the subdomain, a dot and the zone name.  Whatever list
the provider answers, its length alone selects the branch: no record is
dropped or checked against the query on the client side. -/
theorem listing_query_and_count (w : World) (api : API) (zoneId : String)
    (hv : ValidConfig w)
    (hc : w.NewWithAPIToken (osGetenv w "DDNS_CLOUDFLARE_API_TOKEN") = .ok api)
    (hz : w.ZoneIDByName api (osGetenv w "DDNS_CLOUDFLARE_ZONE_NAME") = .ok zoneId) :
    (run w).trace.filter Event.isList =
      [.listDNSRecords zoneId
        { Type_ := "A", Name := osGetenv w "DDNS_CLOUDFLARE_SUBDOMAIN" ++ "." ++
            osGetenv w "DDNS_CLOUDFLARE_ZONE_NAME" }
        (w.ListDNSRecords api zoneId
          { Type_ := "A", Name := osGetenv w "DDNS_CLOUDFLARE_SUBDOMAIN" ++ "." ++
              osGetenv w "DDNS_CLOUDFLARE_ZONE_NAME" })] ∧
    (∀ allRecords, w.ListDNSRecords api zoneId
        { Type_ := "A", Name := osGetenv w "DDNS_CLOUDFLARE_SUBDOMAIN" ++ "." ++
            osGetenv w "DDNS_CLOUDFLARE_ZONE_NAME" } = .ok allRecords →
      createCalls (run w).trace = (if allRecords.length = 0 then 1 else 0) ∧
      updateCalls (run w).trace = (if allRecords.length = 1 then 1 else 0) ∧
      (1 < allRecords.length → (run w).exitCode = 1) ∧
      (∀ r, allRecords = [r] →
        ∀ z p res, Event.updateDNSRecord z p res ∈ (run w).trace → p.ID = r.ID)) := by
  refine ⟨?_, fun allRecords hl => ?_⟩
  · obtain ⟨rest, hrest, hno⟩ := run_from_listing w api zoneId hv hc hz
    have hrest0 : rest.filter Event.isList = [] := by
      rw [List.filter_eq_nil_iff]
      intro e he
      simp [(hno e he).1]
    rw [hrest, List.filter_append, hrest0]
    simp [traceToListing, parameterLines, listQuery, Event.isList, List.filter]
  · have hr : ReachesReconciliation w api zoneId allRecords := ⟨hv, hc, hz, hl⟩
    have hcnt := reconciliation_counts w api zoneId allRecords hr
    refine ⟨hcnt.1, hcnt.2.1, hcnt.2.2, fun r hrec z p res hm => ?_⟩
    subst hrec
    obtain ⟨api1, r1, hr1, hp, -⟩ := update_mem_run w z p res hm
    obtain ⟨-, -, hrec⟩ := reaches_unique w api api1 zoneId z [r] [r1] hr hr1
    cases hrec
    rw [hp]; rfl

/-- C7 at a sample world whose provider answers the listing with one record
of another type and name: the query is `A home.example.com` in zone `z1`, and
the run still takes the update branch, on that record. -/
theorem listing_query_and_count_witness :
    ValidConfig (sampleWorld [foreignRecord]) ∧
    (run (sampleWorld [foreignRecord])).trace.filter Event.isList =
      [.listDNSRecords "z1" { Type_ := "A", Name := "home.example.com" }
        (.ok [foreignRecord])] ∧
    updateCalls (run (sampleWorld [foreignRecord])).trace = 1 ∧
    (∀ z p res, Event.updateDNSRecord z p res ∈ (run (sampleWorld [foreignRecord])).trace →
      p.ID = "id9") :=
  ⟨(by decide),
   (listing_query_and_count (sampleWorld [foreignRecord]) ⟨"tok"⟩ "z1"
     (by decide) rfl rfl).1,
   ((listing_query_and_count (sampleWorld [foreignRecord]) ⟨"tok"⟩ "z1"
     (by decide) rfl rfl).2 [foreignRecord] rfl).2.1,
   ((listing_query_and_count (sampleWorld [foreignRecord]) ⟨"tok"⟩ "z1"
     (by decide) rfl rfl).2 [foreignRecord] rfl).2.2.2
     foreignRecord rfl⟩

/-- C8: every run issues at most one create or update call.  The run exits
with code 0 exactly when its trace holds a successful client construction, a
successful zone resolution, a successful listing of at most one record and a
successful create or update call.  Every other run exits with code 1, its
last event is a fatal log line, and no create or update call in it was
answered without error. -/
theorem no_partial_success (w : World) :
    createCalls (run w).trace + updateCalls (run w).trace ≤ 1 ∧
    ((run w).exitCode = 0 ↔
      (∃ tok api, Event.newWithAPIToken tok (.ok api) ∈ (run w).trace) ∧
      (∃ n z, Event.zoneIDByName n (.ok z) ∈ (run w).trace) ∧
      (∃ z q recs, Event.listDNSRecords z q (.ok recs) ∈ (run w).trace ∧ recs.length ≤ 1) ∧
      (∃ e ∈ (run w).trace, e.isSuccessfulMutation = true)) ∧
    ((run w).exitCode ≠ 0 →
      (run w).exitCode = 1 ∧
      (∃ line, (run w).trace.getLast? = some (.fatal line)) ∧
      ∀ e ∈ (run w).trace, e.isSuccessfulMutation = false) := by
  have hp := main_path w
  unfold run
  generalize main w [] = o at hp
  cases hp with
  | config name hf =>
    simp [createCalls, updateCalls, Event.isCreate, Event.isUpdate, Event.isSuccessfulMutation]
  | client h e hc =>
    simp [createCalls, updateCalls, Event.isCreate, Event.isUpdate, Event.isSuccessfulMutation,
      parameterLines]
  | zone h api e hc hz =>
    simp [createCalls, updateCalls, Event.isCreate, Event.isUpdate, Event.isSuccessfulMutation,
      parameterLines]
  | listing h api zoneId e hc hz hl =>
    simp [createCalls, updateCalls, Event.isCreate, Event.isUpdate, Event.isSuccessfulMutation,
      parameterLines, traceToListing]
  | multiple api zoneId allRecords hr hn =>
    simp [createCalls, updateCalls, Event.isCreate, Event.isUpdate, Event.isSuccessfulMutation,
      parameterLines, traceToListing]
  | updateErr api zoneId r e hr hu =>
    simp [createCalls, updateCalls, Event.isCreate, Event.isUpdate, Event.isSuccessfulMutation,
      parameterLines, traceToListing]
  | createErr api zoneId e hr hu =>
    simp [createCalls, updateCalls, Event.isCreate, Event.isUpdate, Event.isSuccessfulMutation,
      parameterLines, traceToListing]
  | updateOk api zoneId r record hr hu =>
    simp [createCalls, updateCalls, Event.isCreate, Event.isUpdate, Event.isSuccessfulMutation,
      parameterLines, traceToListing, hr.2.2.2]
    exact ⟨zoneId, listQuery w, [r], ⟨rfl, rfl, rfl⟩, by simp⟩
  | createOk api zoneId record hr hu =>
    simp [createCalls, updateCalls, Event.isCreate, Event.isUpdate, Event.isSuccessfulMutation,
      parameterLines, traceToListing, hr.2.2.2]
    exact ⟨zoneId, listQuery w, [], ⟨rfl, rfl, rfl⟩, by simp⟩

/-- C9: `getOptionalEnvironmentVariable` always returns, without any effect:
the environment's value when the variable is set and non-empty, the default
when it is unset or empty.  Every GET of a run of `main` goes to the value of
`DDNS_PUBLIC_IP_ENDPOINT` when that is non-empty and to `https://ipinfo.io/ip`
otherwise, and a run whose client and zone resolved issues exactly one GET. -/
theorem optional_variable_default (w : World) (name dflt : String) :
    (∀ tr, getOptionalEnvironmentVariable w name dflt tr =
      .returned (match w.environ name with
        | some v => if v = "" then dflt else v
        | none => dflt) tr) ∧
    (∀ url res, Event.get url res ∈ (run w).trace →
      url = (match w.environ "DDNS_PUBLIC_IP_ENDPOINT" with
        | some v => if v = "" then "https://ipinfo.io/ip" else v
        | none => "https://ipinfo.io/ip")) ∧
    (∀ api zoneId, ValidConfig w →
      w.NewWithAPIToken (osGetenv w "DDNS_CLOUDFLARE_API_TOKEN") = .ok api →
      w.ZoneIDByName api (osGetenv w "DDNS_CLOUDFLARE_ZONE_NAME") = .ok zoneId →
      ∃ url, (run w).trace.filter Event.isGet = [.get url (w.httpGet url)] ∧
        url = (match w.environ "DDNS_PUBLIC_IP_ENDPOINT" with
          | some v => if v = "" then "https://ipinfo.io/ip" else v
          | none => "https://ipinfo.io/ip")) := by
  have hopt : ∀ (n d : String), (if osGetenv w n = "" then d else osGetenv w n) =
      (match w.environ n with
        | some v => if v = "" then d else v
        | none => d) := by
    intro n d
    unfold osGetenv
    cases w.environ n <;> simp
  have hep := (publicIpEndpoint_eq w).trans (hopt "DDNS_PUBLIC_IP_ENDPOINT" "https://ipinfo.io/ip")
  refine ⟨fun tr => ?_, fun url res hm => ?_, fun api zoneId hv hc hz => ?_⟩
  · rw [getOptional_eq, hopt]
  · rw [← hep]; exact (get_mem_run w url res hm).1
  · obtain ⟨rest, hrest, hno⟩ := run_from_listing w api zoneId hv hc hz
    have hrest0 : rest.filter Event.isGet = [] := by
      rw [List.filter_eq_nil_iff]
      intro e he
      simp [(hno e he).2]
    refine ⟨publicIpEndpoint w, ?_, hep⟩
    rw [hrest, List.filter_append, hrest0]
    simp [traceToListing, parameterLines, Event.isGet, List.filter]

/-- C9 at sample worlds: with the endpoint variable set the GET goes to its
value, and with the variable unset it goes to `https://ipinfo.io/ip`. -/
theorem optional_variable_default_witness :
    (∀ tr, getOptionalEnvironmentVariable sampleWorldEndpoint "DDNS_PUBLIC_IP_ENDPOINT"
      "https://ipinfo.io/ip" tr = .returned "https://api.ipify.org" tr) ∧
    (∀ url res, Event.get url res ∈ (run sampleWorldEndpoint).trace →
      url = "https://api.ipify.org") ∧
    (run sampleWorldEndpoint).trace.filter Event.isGet =
      [.get "https://api.ipify.org" (.ok ⟨.ok "203.0.113.5"⟩)] ∧
    (∀ url res, Event.get url res ∈ (run (sampleWorld [])).trace →
      url = "https://ipinfo.io/ip") ∧
    (run (sampleWorld [])).trace.filter Event.isGet =
      [.get "https://ipinfo.io/ip" (.ok ⟨.ok "203.0.113.5"⟩)] :=
  ⟨(optional_variable_default sampleWorldEndpoint "DDNS_PUBLIC_IP_ENDPOINT"
     "https://ipinfo.io/ip").1,
   (optional_variable_default sampleWorldEndpoint "" "").2.1,
   by decide,
   (optional_variable_default (sampleWorld []) "" "").2.1,
   by decide⟩

/-- C10: two runs whose environments differ only in the non-empty value of
`DDNS_CLOUDFLARE_API_TOKEN`, and whose provider and discovery endpoint answer
alike, emit the same sequence of log lines and exit with the same code; and in
every run with a valid configuration the second log line is the literal
`- API Token: REDACTED`. -/
theorem token_not_logged (w1 w2 : World)
    (henv : ∀ name, name ≠ "DDNS_CLOUDFLARE_API_TOKEN" → w1.environ name = w2.environ name)
    (ht1 : osGetenv w1 "DDNS_CLOUDFLARE_API_TOKEN" ≠ "")
    (ht2 : osGetenv w2 "DDNS_CLOUDFLARE_API_TOKEN" ≠ "")
    (hresp : SameResponses w1 w2) :
    logLines (run w1).trace = logLines (run w2).trace ∧
    (run w1).exitCode = (run w2).exitCode ∧
    (∀ w : World, ValidConfig w →
      (logLines (run w).trace)[1]? = some "- API Token: REDACTED") := by
  obtain ⟨hget, hcerr, hcok⟩ := hresp
  obtain ⟨hz, hs, hcm, hpe, hip, hfm⟩ := same_inputs w1 w2 henv ht1 ht2 hget
  have hlq : listQuery w1 = listQuery w2 := by simp only [listQuery, hz, hs]
  have hcp : createParams w1 = createParams w2 := by simp only [createParams, hs, hcm, hip]
  have hup : ∀ r, updateParams w1 r = updateParams w2 r := fun r => by
    simp only [updateParams, hs, hcm, hip]
  have hpl : logLines (parameterLines w1) = logLines (parameterLines w2) := by
    simp only [parameterLines, hz, hs, hcm, hpe]
  have htl : ∀ a1 a2 z, logLines (traceToListing w1 a1 z) = logLines (traceToListing w2 a2 z) := by
    intro a1 a2 z
    simp only [traceToListing, logLines_append, hpl, hip]
    simp [logLines]
  have hvalid : ValidConfig w1 → ValidConfig w2 := fun h =>
    (firstMissing_eq_none_iff w2).1 (hfm ▸ (firstMissing_eq_none_iff w1).2 h)
  have hclient : ∀ api1, w1.NewWithAPIToken (osGetenv w1 "DDNS_CLOUDFLARE_API_TOKEN") = .ok api1 →
      ∃ api2, w2.NewWithAPIToken (osGetenv w2 "DDNS_CLOUDFLARE_API_TOKEN") = .ok api2 := by
    intro api1 h1
    cases h2 : w2.NewWithAPIToken (osGetenv w2 "DDNS_CLOUDFLARE_API_TOKEN") with
    | ok api2 => exact ⟨api2, rfl⟩
    | err e => rw [(hcerr e).2 h2] at h1; cases h1
  have hreach : ∀ api1 z recs, ReachesReconciliation w1 api1 z recs →
      ∃ api2, ReachesReconciliation w2 api2 z recs ∧
        w1.UpdateDNSRecord api1 = w2.UpdateDNSRecord api2 ∧
        w1.CreateDNSRecord api1 = w2.CreateDNSRecord api2 := by
    intro api1 z recs hr
    obtain ⟨api2, h2⟩ := hclient api1 hr.2.1
    obtain ⟨e1, e2, e3, e4⟩ := hcok api1 api2 hr.2.1 h2
    exact ⟨api2, ⟨hvalid hr.1, h2, by rw [← e1, ← hz]; exact hr.2.2.1,
      by rw [← e2, ← hlq]; exact hr.2.2.2⟩, e3, e4⟩
  have key : logLines (run w1).trace = logLines (run w2).trace ∧
      (run w1).exitCode = (run w2).exitCode := by
    have hp := main_path w1
    generalize ho : main w1 [] = o at hp
    cases hp with
    | config name hf =>
      rw [run_of_exited w1 _ _ ho,
        run_of_exited w2 _ _ (main_config_err w2 name (hfm ▸ hf)).2.2]
      exact ⟨rfl, rfl⟩
    | client h e hc =>
      rw [run_of_exited w1 _ _ ho, run_of_exited w2 _ _
        (main_newWithAPIToken_err w2 (hvalid h) e ((hcerr e).1 hc))]
      simp only [logLines_append, hpl]
      simp [logLines]
    | zone h api e hc hz1 =>
      obtain ⟨api2, hc2⟩ := hclient api hc
      have e1 := (hcok api api2 hc hc2).1
      rw [run_of_exited w1 _ _ ho, run_of_exited w2 _ _
        (main_zoneIDByName_err w2 (hvalid h) api2 e hc2 (by rw [← e1, ← hz]; exact hz1))]
      simp only [logLines_append, hpl]
      simp [logLines]
    | listing h api zoneId e hc hz1 hl =>
      obtain ⟨api2, hc2⟩ := hclient api hc
      obtain ⟨e1, e2, -, -⟩ := hcok api api2 hc hc2
      rw [run_of_exited w1 _ _ ho, run_of_exited w2 _ _
        (main_listDNSRecords_err w2 (hvalid h) api2 zoneId e hc2
          (by rw [← e1, ← hz]; exact hz1) (by rw [← e2, ← hlq]; exact hl))]
      simp only [logLines_append, htl api api2 zoneId]
      simp [logLines]
    | multiple api zoneId allRecords hr hn =>
      obtain ⟨api2, hr2, -, -⟩ := hreach api zoneId allRecords hr
      rw [run_of_exited w1 _ _ ho, run_of_exited w2 _ _
        (main_multiple w2 allRecords api2 zoneId hr2 hn)]
      simp only [logLines_append, htl api api2 zoneId, hs]
      simp [logLines]
    | updateErr api zoneId r e hr hu =>
      obtain ⟨api2, hr2, e3, -⟩ := hreach api zoneId [r] hr
      rw [run_of_exited w1 _ _ ho, run_of_exited w2 _ _
        (main_update_err w2 r api2 zoneId e hr2 (by rw [← e3, ← hup]; exact hu))]
      simp only [logLines_append, htl api api2 zoneId]
      simp [logLines]
    | updateOk api zoneId r record hr hu =>
      obtain ⟨api2, hr2, e3, -⟩ := hreach api zoneId [r] hr
      rw [run_of_returned w1 _ _ ho, run_of_returned w2 _ _
        (main_update_ok w2 r api2 zoneId record hr2 (by rw [← e3, ← hup]; exact hu))]
      simp only [logLines_append, htl api api2 zoneId]
      simp [logLines]
    | createErr api zoneId e hr hu =>
      obtain ⟨api2, hr2, -, e4⟩ := hreach api zoneId [] hr
      rw [run_of_exited w1 _ _ ho, run_of_exited w2 _ _
        (main_create_err w2 api2 zoneId e hr2 (by rw [← e4, ← hcp]; exact hu))]
      simp only [logLines_append, htl api api2 zoneId]
      simp [logLines]
    | createOk api zoneId record hr hu =>
      obtain ⟨api2, hr2, -, e4⟩ := hreach api zoneId [] hr
      rw [run_of_returned w1 _ _ ho, run_of_returned w2 _ _
        (main_create_ok w2 api2 zoneId record hr2 (by rw [← e4, ← hcp]; exact hu))]
      simp only [logLines_append, htl api api2 zoneId]
      simp [logLines]
  refine ⟨key.1, key.2, ?_⟩
  intro w hv
  have hp := main_path w
  unfold run
  generalize main w [] = o at hp
  cases hp with
  | config name hf =>
    rw [(firstMissing_eq_none_iff w).2 hv] at hf
    cases hf
  | _ => simp [logLines, traceToListing, parameterLines]

/-- C10 at two sample worlds that differ only in the token (`tok` and
`s3cr3t`): the same log lines, none of which holds either token. -/
theorem token_not_logged_witness :
    (∀ name, name ≠ "DDNS_CLOUDFLARE_API_TOKEN" →
      (sampleWorld []).environ name = (sampleWorldOtherToken []).environ name) ∧
    osGetenv (sampleWorld []) "DDNS_CLOUDFLARE_API_TOKEN" = "tok" ∧
    osGetenv (sampleWorldOtherToken []) "DDNS_CLOUDFLARE_API_TOKEN" = "s3cr3t" ∧
    SameResponses (sampleWorld []) (sampleWorldOtherToken []) ∧
    logLines (run (sampleWorld [])).trace = logLines (run (sampleWorldOtherToken [])).trace ∧
    logLines (run (sampleWorldOtherToken [])).trace =
      ["Running Cloudflare DDNS with the following parameters:",
       "- API Token: REDACTED",
       "- Zone Name: example.com",
       "- Subdomain: home",
       "- Comment: ddns",
       "- Public IP Endpoint: https://ipinfo.io/ip",
       "Current public IP address is: 203.0.113.5",
       "Searching existing records...",
       "Record doesn't exist yet. Will create...",
       "Sucessfully created record: A home.example.com -> 203.0.113.5"] :=
  have henv : ∀ name, name ≠ "DDNS_CLOUDFLARE_API_TOKEN" →
      (sampleWorld []).environ name = (sampleWorldOtherToken []).environ name :=
    fun name hne => (if_neg hne).symm
  have hresp : SameResponses (sampleWorld []) (sampleWorldOtherToken []) :=
    ⟨rfl, fun e => ⟨fun h => (by cases h), fun h => (by cases h)⟩,
      fun _ _ _ _ => ⟨rfl, rfl, rfl, rfl⟩⟩
  ⟨henv, by decide, by decide, hresp,
   (token_not_logged (sampleWorld []) (sampleWorldOtherToken []) henv (by decide) (by decide)
     hresp).1,
   by decide⟩

end CloudflareDDNS
